import Mathlib

/-!
# OceanViewer: the environment model, the frame tick and the camera controller

A shallow embedding of `script.js`.  The globals of the script (`scene`, `camera`,
`controls`, `sun`, `sky`, `water`, `starfield`, `keys`) become the fields of one explicit
`State`; every function of the script becomes a state transformer.  Numbers are taken in a
linear ordered field `α` (the properties are read over the reals); the functions of the
JavaScript `Math` object and the `update` method of `OrbitControls` are supplied by a
`Host`, so that the definitions stay executable over `ℚ` and are read at `realHost` where
a theorem needs the trigonometry of the reals.
-/

namespace OceanViewer

/-! ## Vectors and colours -/

/-- A `THREE.Vector3`. -/
@[ext]
structure Vector3 (α : Type) where
  x : α
  y : α
  z : α
deriving DecidableEq

/-- A `THREE.Color`, recorded by the arguments of the call that last set it: the
constructor with a hexadecimal literal, or `setHSL(h, s, l)`. -/
inductive Color (α : Type) where
  | hex (n : Nat)
  | hsl (h s l : α)
deriving DecidableEq

/-- The camera: its position and the unit vector returned by `getWorldDirection`. -/
structure Camera (α : Type) where
  position : Vector3 α
  direction : Vector3 α
deriving DecidableEq

/-- The `OrbitControls` object: the fields the script reads or writes. -/
structure Controls (α : Type) where
  target : Vector3 α
  isReady : Bool
deriving DecidableEq

/-- What the script needs from outside: `Math.PI`, `Math.sin`, `Math.cos`, `Math.sqrt`
and `OrbitControls.update`. -/
structure Host (α : Type) where
  PI : α
  sin : α → α
  cos : α → α
  sqrt : α → α
  controlsUpdate : Camera α → Controls α → Camera α × Controls α

section Defs

variable {α : Type} [LinearOrderedField α]

/-- The constant `moveSpeed` of the script. -/
def moveSpeed : α := 1

namespace Vector3

/-- The method `Vector3.setFromSphericalCoords(radius, phi, theta)`. -/
def setFromSphericalCoords (h : Host α) (radius phi theta : α) : Vector3 α :=
  let sinPhiRadius := h.sin phi * radius
  ⟨sinPhiRadius * h.sin theta, h.cos phi * radius, sinPhiRadius * h.cos theta⟩

/-- The method `Vector3.length()`. -/
def length (h : Host α) (v : Vector3 α) : α :=
  h.sqrt (v.x * v.x + v.y * v.y + v.z * v.z)

/-- The method `Vector3.multiplyScalar(s)`. -/
def multiplyScalar (v : Vector3 α) (s : α) : Vector3 α :=
  ⟨v.x * s, v.y * s, v.z * s⟩

/-- The method `Vector3.divideScalar(s)`, which multiplies by `1 / s`. -/
def divideScalar (v : Vector3 α) (s : α) : Vector3 α :=
  v.multiplyScalar (1 / s)

/-- The divisor of `Vector3.normalize()`: the expression `this.length() || 1`. -/
def normalizeDivisor (h : Host α) (v : Vector3 α) : α :=
  if length h v = 0 then 1 else length h v

/-- The method `Vector3.normalize()`. -/
def normalize (h : Host α) (v : Vector3 α) : Vector3 α :=
  v.divideScalar (normalizeDivisor h v)

/-- The method `Vector3.crossVectors(a, b)`. -/
def crossVectors (a b : Vector3 α) : Vector3 α :=
  ⟨a.y * b.z - a.z * b.y, a.z * b.x - a.x * b.z, a.x * b.y - a.y * b.x⟩

/-- The method `Vector3.addScaledVector(v, s)`. -/
def addScaledVector (p v : Vector3 α) (s : α) : Vector3 α :=
  ⟨p.x + v.x * s, p.y + v.y * s, p.z + v.z * s⟩

/-- The method `Vector3.sub(b)`. -/
def sub (a b : Vector3 α) : Vector3 α :=
  ⟨a.x - b.x, a.y - b.y, a.z - b.z⟩

/-- The method `Vector3.dot(b)`. -/
def dot (a b : Vector3 α) : α :=
  a.x * b.x + a.y * b.y + a.z * b.z

end Vector3

/-! ## `THREE.MathUtils` -/

/-- Modelled from the spec: `THREE.MathUtils.lerp` is library code, not under `src/`.  The
glossary gives `lerp(a,b,t) = a + (b-a)*t`; the library writes the same affine map as
`(1 - t) * x + t * y`, which is the form kept here (`lerp_eq_specLerp` relates the two). -/
def lerp (x y t : α) : α :=
  (1 - t) * x + t * y

/-- Modelled from the spec: `THREE.MathUtils.smoothstep(x, min, max)` is library code, not
under `src/`.  The spec describes a cubic Hermite interpolation between two edges, flat at
both ends, that saturates to 0 below the lower edge and to 1 above the upper edge; this is
the library's body. -/
def smoothstep (x min max : α) : α :=
  if x ≤ min then 0
  else if x ≥ max then 1
  else
    let t := (x - min) / (max - min)
    t * t * (3 - 2 * t)

/-! ## The scene graph -/

/-- The uniforms of the `THREE.Sky` material that the script touches. -/
structure SkyUniforms (α : Type) where
  turbidity : α
  rayleigh : α
  mieCoefficient : α
  mieDirectionalG : α
  sunPosition : Vector3 α
deriving DecidableEq

/-- The uniforms of the `THREE.Water` material that the script touches. -/
structure WaterUniforms (α : Type) where
  sunDirection : Vector3 α
  waterColor : Color α
  time : α
deriving DecidableEq

/-- The `THREE.PointsMaterial` of the starfield: the one field that changes. -/
structure PointsMaterial (α : Type) where
  opacity : α
deriving DecidableEq

/-- A child of the scene.  The sky, the water and the starfield are also held in globals,
where their uniforms live; lights and plain meshes carry their data here. -/
inductive Object3D (α : Type) where
  | sky
  | water
  | points
  | mesh (name : String) (color : Color α)
  | ambientLight (name : String) (color : Color α) (intensity : α)
  | directionalLight (name : String) (color : Color α) (intensity : α)
      (position : Vector3 α)
deriving DecidableEq

/-- The property `name` of an object; it is the empty string unless assigned. -/
def Object3D.name : Object3D α → String
  | .sky => ""
  | .water => ""
  | .points => ""
  | .mesh n _ => n
  | .ambientLight n _ _ => n
  | .directionalLight n _ _ _ => n

/-- Whether the object is a light. -/
def Object3D.isLight : Object3D α → Bool
  | .ambientLight _ _ _ => true
  | .directionalLight _ _ _ _ => true
  | _ => false

/-- Whether the object is an ambient light. -/
def Object3D.isAmbientLight : Object3D α → Bool
  | .ambientLight _ _ _ => true
  | _ => false

/-- Whether the object is a directional light. -/
def Object3D.isDirectionalLight : Object3D α → Bool
  | .directionalLight _ _ _ _ => true
  | _ => false

/-- The `THREE.Scene`: its background colour and its children, in insertion order. -/
@[ext]
structure Scene (α : Type) where
  background : Color α
  children : List (Object3D α)
deriving DecidableEq

namespace Scene

/-- The method `scene.getObjectByName(name)`: the first child with that name (the scene
itself is named `""`, and no child has children of its own). -/
def getObjectByName (sc : Scene α) (name : String) : Option (Object3D α) :=
  sc.children.find? (fun o => o.name == name)

/-- The method `scene.remove(object)`; removing `undefined` changes nothing. -/
def remove (sc : Scene α) (o : Option (Object3D α)) : Scene α :=
  match o with
  | none => sc
  | some obj => { sc with children := sc.children.erase obj }

/-- The method `scene.add(object)`. -/
def add (sc : Scene α) (obj : Object3D α) : Scene α :=
  { sc with children := sc.children ++ [obj] }

end Scene

/-- The assignment `skybox.material.color.copy(c)` on the first child named `skybox`. -/
def setSkyboxColor (c : Color α) : List (Object3D α) → List (Object3D α)
  | [] => []
  | o :: os =>
    if o.name == "skybox" then
      (match o with
        | .mesh n _ => Object3D.mesh n c
        | other => other) :: os
    else o :: setSkyboxColor c os

/-- The object `keys` of the script. -/
structure Keys where
  w : Bool
  a : Bool
  s : Bool
  d : Bool
  q : Bool
  e : Bool
deriving DecidableEq

/-- The globals of the script. -/
@[ext]
structure State (α : Type) where
  scene : Scene α
  camera : Camera α
  controls : Controls α
  sun : Vector3 α
  sky : Option (SkyUniforms α)
  water : Option (WaterUniforms α)
  starfield : Option (PointsMaterial α)
  keys : Keys
deriving DecidableEq

/-! ## Key events -/

/-- The test `key in keys`, for the values that `event.key` takes. -/
def Keys.has (key : String) : Bool :=
  key == "w" || key == "a" || key == "s" || key == "d" || key == "q" || key == "e"

/-- The assignment `keys[key] = v` for one of the six keys. -/
def Keys.assign (k : Keys) (key : String) (v : Bool) : Keys :=
  if key == "w" then { k with w := v }
  else if key == "a" then { k with a := v }
  else if key == "s" then { k with s := v }
  else if key == "d" then { k with d := v }
  else if key == "q" then { k with q := v }
  else if key == "e" then { k with e := v }
  else k

/-- The object `keys` as the script creates it: no key held. -/
def Keys.released : Keys :=
  ⟨false, false, false, false, false, false⟩

/-- Exactly one key held: `keys` after `keys[key] = true` from the released state. -/
def Keys.only (key : String) : Keys :=
  Keys.released.assign key true

/-- The state `s` with the keys `k` held. -/
def holding (k : Keys) (s : State α) : State α :=
  { s with keys := k }

/-- The handler `onKeyDown(event)`, with `eventKey` the value of `event.key`. -/
def onKeyDown (eventKey : String) (s : State α) : State α :=
  let key := eventKey.toLower
  if Keys.has key then { s with keys := s.keys.assign key true } else s

/-- The handler `onKeyUp(event)`, with `eventKey` the value of `event.key`. -/
def onKeyUp (eventKey : String) (s : State α) : State α :=
  let key := eventKey.toLower
  if Keys.has key then { s with keys := s.keys.assign key false } else s

/-! ## The environment model -/

/-- The local `theta` of `updateSun`, for the slider value `sunPosition`. -/
def sunTheta (h : Host α) (sunPosition : α) : α :=
  h.PI * (sunPosition / 100 - 0.5)

/-- The vector written to `sun` by `updateSun`. -/
def sunVector (h : Host α) (theta : α) : Vector3 α :=
  Vector3.setFromSphericalCoords h 1000 (h.PI / 2 - theta) (h.PI * 0.25)

/-- The local `normalizedTheta` of `updateSceneBasedOnSunPosition`. -/
def normalizedTheta (h : Host α) (theta : α) : α :=
  (h.sin theta + 1) * 0.5

/-- The local `skyBrightness` of `updateSceneBasedOnSunPosition`. -/
def skyBrightness (normalizedTheta : α) : α :=
  smoothstep normalizedTheta 0.1 0.9

/-- The local `sunsetProgress` of `updateSceneBasedOnSunPosition`. -/
def sunsetProgress (normalizedTheta : α) : α :=
  1 - |normalizedTheta - 0.5| * 2

/-- The function `updateLighting(normalizedTheta, skyBrightness, sunsetProgress)`. -/
def updateLighting (normalizedTheta skyBrightness sunsetProgress : α) (s : State α) :
    State α :=
  let scene := s.scene.remove (s.scene.getObjectByName "ambientLight")
  let scene := scene.remove (scene.getObjectByName "directionalLight")
  -- Ambient light
  let ambientIntensity := lerp 0.05 0.3 skyBrightness
  let ambientColor : Color α := .hsl (lerp 0.6 0.05 sunsetProgress) 0.5 0.5
  let scene := scene.add (.ambientLight "ambientLight" ambientColor ambientIntensity)
  -- Directional light (sun)
  let directionalIntensity := lerp 0.1 1.5 skyBrightness
  let directionalColor : Color α := .hsl (lerp 0.1 0.05 sunsetProgress) 1 0.95
  let scene := scene.add
    (.directionalLight "directionalLight" directionalColor directionalIntensity s.sun)
  -- Update water color based on time of day
  let water := s.water.map fun u =>
    let waterHue := lerp 0.6 0.05 sunsetProgress
    let waterSaturation := lerp 0.5 0.8 sunsetProgress
    let waterLightness := lerp 0.2 0.6 skyBrightness
    { u with waterColor := .hsl waterHue waterSaturation waterLightness }
  -- Update skybox color
  let scene :=
    match scene.getObjectByName "skybox" with
    | some _ =>
      let skyboxColor : Color α := .hsl (lerp 0.67 0.6 normalizedTheta) 0.5 skyBrightness
      { scene with children := setSkyboxColor skyboxColor scene.children }
    | none => scene
  { s with scene := scene, water := water }

/-- The function `updateSceneBasedOnSunPosition(theta)`. -/
def updateSceneBasedOnSunPosition (h : Host α) (theta : α) (s : State α) : State α :=
  let normalizedTheta := (h.sin theta + 1) * 0.5
  let skyBrightness := smoothstep normalizedTheta 0.1 0.9
  let sky := s.sky.map fun skyUniforms =>
    { skyUniforms with
      turbidity := lerp 1 20 normalizedTheta
      rayleigh := lerp 0.5 4 (1 - |normalizedTheta - 0.5| * 2)
      mieCoefficient := lerp 0.005 0.03 (1 - |normalizedTheta - 0.5| * 2)
      mieDirectionalG := lerp 0.7 0.98 (1 - |normalizedTheta - 0.5| * 2) }
  let sunsetProgress := 1 - |normalizedTheta - 0.5| * 2
  let skyHue := lerp 0.55 0.05 sunsetProgress
  let skySaturation := lerp 0.2 0.8 sunsetProgress
  let skyLightness := lerp 0.2 0.5 normalizedTheta
  let scene := { s.scene with background := Color.hsl skyHue skySaturation skyLightness }
  -- Update starfield visibility
  let starfield := s.starfield.map fun material =>
    { material with opacity := lerp 0.8 0 skyBrightness }
  updateLighting normalizedTheta skyBrightness sunsetProgress
    { s with sky := sky, scene := scene, starfield := starfield }

/-- The function `updateSun()`, with `sunPosition` the value of the slider. -/
def updateSun (h : Host α) (sunPosition : α) (s : State α) : State α :=
  let theta := h.PI * (sunPosition / 100 - 0.5)
  let phi := h.PI * 0.25
  let sun := Vector3.setFromSphericalCoords h 1000 (h.PI / 2 - theta) phi
  let sky := s.sky.map fun u => { u with sunPosition := sun }
  let water := s.water.map fun u => { u with sunDirection := sun.normalize h }
  updateSceneBasedOnSunPosition h theta { s with sun := sun, sky := sky, water := water }

/-! ## The camera controller and the frame tick -/

/-- The function `updateCamera()`. -/
def updateCamera (h : Host α) (s : State α) : State α :=
  let up : Vector3 α := ⟨0, 1, 0⟩
  let forward := s.camera.direction
  let right := (Vector3.crossVectors up forward).normalize h
  let p := s.camera.position
  let p := if s.keys.w then p.addScaledVector forward moveSpeed else p
  let p := if s.keys.s then p.addScaledVector forward (-moveSpeed) else p
  let p := if s.keys.a then p.addScaledVector right (-moveSpeed) else p
  let p := if s.keys.d then p.addScaledVector right moveSpeed else p
  let p := if s.keys.q then p.addScaledVector up (-moveSpeed) else p
  let p := if s.keys.e then p.addScaledVector up moveSpeed else p
  let controls :=
    if s.controls.isReady then { s.controls with target := p.addScaledVector forward 1 }
    else s.controls
  { s with camera := { s.camera with position := p }, controls := controls }

/-- The function `animate()`: one frame tick.  Scheduling the next frame and rendering
change nothing in the state. -/
def animate (h : Host α) (s : State α) : State α :=
  let s : State α := updateCamera h s
  let water := s.water.map fun (u : WaterUniforms α) =>
    { u with time := u.time + 1.0 / 60.0 }
  let s : State α := { s with water := water }
  if s.controls.isReady then
    let r := h.controlsUpdate s.camera s.controls
    { s with camera := r.1, controls := r.2 }
  else s

/-- The state after `n` frame ticks. -/
def ticks (h : Host α) : Nat → State α → State α
  | 0, s => s
  | n + 1, s => animate h (ticks h n s)

/-! ## Start-up -/

/-- The method `camera.lookAt(target)`, as seen through `getWorldDirection`: the camera
faces the target, and keeps facing `-z` when the target is its own position. -/
def Camera.lookAt (h : Host α) (c : Camera α) (target : Vector3 α) : Camera α :=
  let d := target.sub c.position
  { c with direction := if d.dot d = 0 then ⟨0, 0, -1⟩ else d.normalize h }

/-- The function `createStarfield()`; the positions of the stars are not kept. -/
def createStarfield (s : State α) : State α :=
  { s with starfield := some ⟨0⟩, scene := s.scene.add .points }

/-- The function `init()` on its normal path.  `hasSky` and `hasWater` tell whether
`THREE.Sky` and `THREE.Water` are defined, `sunPosition` is the value of the slider when
`updateSun()` is first called. -/
def init (h : Host α) (hasSky hasWater : Bool) (sunPosition : α) : State α :=
  -- the background is null until the assignment below; nothing reads it before
  let scene : Scene α := ⟨.hex 0x87CEEB, []⟩
  let camera : Camera α := Camera.lookAt h ⟨⟨0, 100, 1000⟩, ⟨0, 0, -1⟩⟩ ⟨0, 0, -1000⟩
  -- OrbitControls, created with its target at the origin, then `controls.update()`
  let r := h.controlsUpdate camera ⟨⟨0, 0, 0⟩, false⟩
  let camera := r.1
  let controls := { r.2 with isReady := true }
  -- Sun
  let sun : Vector3 α := ⟨0, 0, 0⟩
  -- Sky
  let sky : Option (SkyUniforms α) :=
    if hasSky then some ⟨10, 2, 0.005, 0.8, ⟨0, 0, 0⟩⟩ else none
  let scene := if hasSky then scene.add .sky else scene
  -- Water
  let water : Option (WaterUniforms α) :=
    if hasWater then some ⟨⟨0, 0, 0⟩, .hex 0x001e0f, 0⟩ else none
  let scene := if hasWater then scene.add .water else scene.add (.mesh "" (.hex 0x0077be))
  let scene := { scene with background := Color.hex 0x87CEEB }
  -- Lights
  let scene := scene.add (.ambientLight "" (.hex 0x404040) 1)
  let scene := scene.add (.directionalLight "" (.hex 0xffffff) 0.5 ⟨1, 1, 1⟩)
  let s : State α :=
    { scene := scene, camera := camera, controls := controls, sun := sun, sky := sky,
      water := water, starfield := none,
      keys := Keys.released }
  let s := createStarfield s
  let s := updateSun h sunPosition s
  animate h s

/-- One event of the running page: the slider moves to a value, a frame is drawn (the
browser passes the time to `animate`, which takes no argument), a key goes down or up. -/
inductive Event (α : Type) where
  | sunInput (sunPosition : α)
  | tick (timestamp : α)
  | keyDown (eventKey : String)
  | keyUp (eventKey : String)

/-- Whether the event is a frame tick. -/
def Event.isTick : Event α → Bool
  | .tick _ => true
  | _ => false

/-- The effect of one event on the state. -/
def step (h : Host α) (s : State α) : Event α → State α
  | .sunInput x => updateSun h x s
  | .tick _ => animate h s
  | .keyDown k => onKeyDown k s
  | .keyUp k => onKeyUp k s

/-- The state after a list of events, oldest first. -/
def run (h : Host α) (s : State α) (es : List (Event α)) : State α :=
  es.foldl (step h) s

/-- The states the page can be in: `init` followed by any events. -/
def Reachable (h : Host α) (hasSky hasWater : Bool) (s : State α) : Prop :=
  ∃ (x0 : α) (es : List (Event α)), s = run h (init h hasSky hasWater x0) es

/-- The local `right` of `updateCamera`. -/
def cameraRight (h : Host α) (s : State α) : Vector3 α :=
  (Vector3.crossVectors ⟨0, 1, 0⟩ s.camera.direction).normalize h

/-- The change of the camera position made by one call of `updateCamera`. -/
def positionDelta (h : Host α) (s : State α) : Vector3 α :=
  (updateCamera h s).camera.position.sub s.camera.position

/-- The simulated time of the water, when the water has uniforms. -/
def waterTime (s : State α) : Option α :=
  s.water.map fun u => u.time

/-- The lights among the children of the scene. -/
def lights (s : State α) : List (Object3D α) :=
  s.scene.children.filter Object3D.isLight

end Defs

end OceanViewer

namespace OceanViewer

/-! ## The reference formulas of the specification -/

section SpecDefs

variable {α : Type} [LinearOrderedField α]

/-- The glossary's linear interpolation, `lerp(a,b,t) = a + (b-a)*t`. -/
def specLerp (a b t : α) : α :=
  a + (b - a) * t

/-- The derived parameters listed in the data model. -/
structure EnvironmentParameters (α : Type) where
  turbidity : α
  rayleigh : α
  mieCoefficient : α
  mieDirectionalG : α
  background : Color α
  starfieldOpacity : α
  ambientIntensity : α
  ambientColor : Color α
  directionalIntensity : α
  directionalColor : Color α
  directionalPosition : Vector3 α
  waterTint : Color α

/-- Steps 6 to 11 of the component design of the environment model, written from the
specification, in terms of the three signals and the sun vector. -/
def specParameters (normalizedTheta skyBrightness sunsetProgress : α)
    (sunVector : Vector3 α) : EnvironmentParameters α where
  turbidity := specLerp 1 20 normalizedTheta
  rayleigh := specLerp 0.5 4 sunsetProgress
  mieCoefficient := specLerp 0.005 0.03 sunsetProgress
  mieDirectionalG := specLerp 0.7 0.98 sunsetProgress
  background := .hsl (specLerp 0.55 0.05 sunsetProgress) (specLerp 0.2 0.8 sunsetProgress)
    (specLerp 0.2 0.5 normalizedTheta)
  starfieldOpacity := specLerp 0.8 0 skyBrightness
  ambientIntensity := specLerp 0.05 0.3 skyBrightness
  ambientColor := .hsl (specLerp 0.6 0.05 sunsetProgress) 0.5 0.5
  directionalIntensity := specLerp 0.1 1.5 skyBrightness
  directionalColor := .hsl (specLerp 0.1 0.05 sunsetProgress) 1 0.95
  directionalPosition := sunVector
  waterTint := .hsl (specLerp 0.6 0.05 sunsetProgress) (specLerp 0.5 0.8 sunsetProgress)
    (specLerp 0.2 0.6 skyBrightness)

/-- The reference parameters for a slider value: the formulas of the specification
applied to the three signals and to the sun vector of that value. -/
def referenceParameters (h : Host α) (sunAngle : α) : EnvironmentParameters α :=
  specParameters (normalizedTheta h (sunTheta h sunAngle))
    (skyBrightness (normalizedTheta h (sunTheta h sunAngle)))
    (sunsetProgress (normalizedTheta h (sunTheta h sunAngle)))
    (sunVector h (sunTheta h sunAngle))

end SpecDefs

/-- The host over the reals: the real constant and functions behind `Math`, and any
behaviour `orbit` of `OrbitControls.update`. -/
noncomputable def realHost (orbit : Camera ℝ → Controls ℝ → Camera ℝ × Controls ℝ) :
    Host ℝ :=
  ⟨Real.pi, Real.sin, Real.cos, Real.sqrt, orbit⟩

/-- The children that `init` puts in the scene before the first `updateSun()`: the sky
when there is one, the water or its flat stand-in, the two unnamed lights, the stars. -/
def baseChildren {α : Type} [LinearOrderedField α] (hasSky hasWater : Bool) :
    List (Object3D α) :=
  (if hasSky then [Object3D.sky] else []) ++
    [if hasWater then Object3D.water else Object3D.mesh "" (.hex 0x0077be),
      Object3D.ambientLight "" (.hex 0x404040) 1,
      Object3D.directionalLight "" (.hex 0xffffff) 0.5 ⟨1, 1, 1⟩,
      Object3D.points]

/-- What every state of the running page satisfies: the scene holds the children of
start-up followed by one named light of each kind, and the optional parts are present
according to the capabilities found at start-up. -/
def Settled {α : Type} [LinearOrderedField α] (hasSky hasWater : Bool) (s : State α) :
    Prop :=
  (∃ ca ia cd id pd, s.scene.children =
      baseChildren hasSky hasWater ++
        [Object3D.ambientLight "ambientLight" ca ia,
          Object3D.directionalLight "directionalLight" cd id pd]) ∧
    s.sky.isSome = hasSky ∧ s.water.isSome = hasWater ∧ s.starfield.isSome = true

/-- An `OrbitControls.update` that leaves the camera and the controls as they are. -/
def stillOrbit {α : Type} (c : Camera α) (k : Controls α) : Camera α × Controls α :=
  (c, k)

/-- A state of the page in which the camera looks straight up and only `d` is held. -/
noncomputable def lookingUp : State ℝ :=
  { init (realHost stillOrbit) true true 50 with
    camera := ⟨⟨0, 100, 1000⟩, ⟨0, 1, 0⟩⟩
    keys := Keys.only "d" }

/-- A state of the page in which the camera looks along `-z` and no key is held. -/
noncomputable def lookingAhead : State ℝ :=
  { init (realHost stillOrbit) true true 50 with
    camera := ⟨⟨0, 100, 1000⟩, ⟨0, 0, -1⟩⟩
    keys := Keys.released }

/-! ## Interpolation -/

section Lemmas

variable {α : Type} [LinearOrderedField α]

theorem lerp_eq_specLerp (x y t : α) : lerp x y t = specLerp x y t := by
  unfold lerp specLerp
  ring

theorem lerp_mem_of_le {x y t : α} (hxy : x ≤ y) (h0 : 0 ≤ t) (h1 : t ≤ 1) :
    x ≤ lerp x y t ∧ lerp x y t ≤ y := by
  unfold lerp
  constructor <;> nlinarith

theorem lerp_mem_of_ge {x y t : α} (hxy : y ≤ x) (h0 : 0 ≤ t) (h1 : t ≤ 1) :
    y ≤ lerp x y t ∧ lerp x y t ≤ x := by
  unfold lerp
  constructor <;> nlinarith

theorem smoothstep_mem {x lo hi : α} (hlt : lo < hi) :
    0 ≤ smoothstep x lo hi ∧ smoothstep x lo hi ≤ 1 := by
  unfold smoothstep
  split_ifs with h1 h2
  · exact ⟨le_refl _, zero_le_one⟩
  · exact ⟨zero_le_one, le_refl _⟩
  · have hd : 0 < hi - lo := sub_pos.mpr hlt
    have ht0 : 0 ≤ (x - lo) / (hi - lo) :=
      div_nonneg (by linarith [not_le.mp h1]) hd.le
    have ht1 : (x - lo) / (hi - lo) ≤ 1 := by
      rw [div_le_one hd]
      linarith [not_le.mp h2]
    generalize (x - lo) / (hi - lo) = t at ht0 ht1
    show 0 ≤ t * t * (3 - 2 * t) ∧ t * t * (3 - 2 * t) ≤ 1
    constructor
    · have : 0 ≤ 3 - 2 * t := by linarith
      positivity
    · nlinarith [mul_nonneg (mul_self_nonneg (1 - t)) (by linarith : (0 : α) ≤ 1 + 2 * t)]

theorem sunsetProgress_mem {n : α} (h0 : 0 ≤ n) (h1 : n ≤ 1) :
    0 ≤ sunsetProgress n ∧ sunsetProgress n ≤ 1 := by
  unfold sunsetProgress
  have habs : |n - 0.5| ≤ 0.5 := by
    rw [abs_le]
    constructor <;> norm_num <;> linarith
  have hnn : 0 ≤ |n - 0.5| := abs_nonneg _
  constructor
  · norm_num at habs ⊢
    linarith
  · linarith

theorem skyBrightness_mem (n : α) : 0 ≤ skyBrightness n ∧ skyBrightness n ≤ 1 := by
  unfold skyBrightness
  exact smoothstep_mem (by norm_num)

end Lemmas

theorem normalizedTheta_mem (orbit : Camera ℝ → Controls ℝ → Camera ℝ × Controls ℝ)
    (theta : ℝ) :
    0 ≤ normalizedTheta (realHost orbit) theta ∧
      normalizedTheta (realHost orbit) theta ≤ 1 := by
  have h1 := Real.neg_one_le_sin theta
  have h2 := Real.sin_le_one theta
  simp only [normalizedTheta, realHost]
  constructor <;> norm_num <;> linarith

/-! ## The scene graph -/

section SceneLemmas

set_option linter.unusedSectionVars false

variable {α : Type} [LinearOrderedField α]

theorem erase_find_eq_eraseP (c : Color α) (n : String) (l : List (Object3D α)) :
    (Scene.remove ⟨c, l⟩ (Scene.getObjectByName ⟨c, l⟩ n)).children =
      l.eraseP (fun o => o.name == n) := by
  induction l with
  | nil => simp [Scene.remove, Scene.getObjectByName]
  | cons o os ih =>
    by_cases ho : o.name = n
    · simp [Scene.remove, Scene.getObjectByName, ho]
    · simp only [Scene.remove, Scene.getObjectByName] at ih ⊢
      have hb : (o.name == n) = false := by simpa using ho
      rw [List.find?_cons_of_neg _ (by simp [hb]), List.eraseP_cons_of_neg (by simp [hb])]
      cases hf : List.find? (fun o => o.name == n) os with
      | none =>
        rw [hf] at ih
        simp only at ih ⊢
        rw [← ih]
      | some obj =>
        rw [hf] at ih
        simp only at ih ⊢
        have hne : o ≠ obj := by
          intro he
          have := List.find?_some hf
          rw [← he] at this
          exact ho (by simpa using this)
        rw [List.erase_cons_tail (by simpa using hne), ih]

theorem remove_getObjectByName (sc : Scene α) (n : String) :
    sc.remove (sc.getObjectByName n) =
      { sc with children := sc.children.eraseP (fun o => o.name == n) } := by
  have h := erase_find_eq_eraseP sc.background n sc.children
  have hb : (sc.remove (sc.getObjectByName n)).background = sc.background := by
    unfold Scene.remove
    cases sc.getObjectByName n <;> rfl
  cases hr : sc.remove (sc.getObjectByName n) with
  | mk b ch =>
    rw [hr] at hb
    have h2 : (Scene.remove ⟨sc.background, sc.children⟩
        (Scene.getObjectByName ⟨sc.background, sc.children⟩ n)) = ⟨b, ch⟩ := hr
    rw [h2] at h
    simp only at hb h
    rw [hb, h]

theorem setSkyboxColor_eq_self (c : Color α) (l : List (Object3D α))
    (hl : ∀ o ∈ l, o.name ≠ "skybox") : setSkyboxColor c l = l := by
  induction l with
  | nil => rfl
  | cons o os ih =>
    have ho : (o.name == "skybox") = false := by simpa using hl o (by simp)
    simp only [setSkyboxColor, ho]
    rw [ih (fun o h => hl o (by simp [h]))]
    simp

theorem setSkyboxColor_append (c : Color α) (l t : List (Object3D α))
    (ht : ∀ o ∈ t, o.name ≠ "skybox") :
    setSkyboxColor c (l ++ t) = setSkyboxColor c l ++ t := by
  induction l with
  | nil => simpa [setSkyboxColor] using setSkyboxColor_eq_self c t ht
  | cons o os ih =>
    by_cases ho : (o.name == "skybox") = true
    · simp [setSkyboxColor, ho]
    · simp [setSkyboxColor, ho, ih]

/-- The children of the scene after `updateLighting`: the first child of each light name
is gone, the two new lights are last, and a child named `skybox` is recoloured. -/
theorem updateLighting_children (n b p : α) (s : State α) :
    (updateLighting n b p s).scene.children =
      setSkyboxColor (.hsl (lerp 0.67 0.6 n) 0.5 b)
          ((s.scene.children.eraseP (fun o => o.name == "ambientLight")).eraseP
            (fun o => o.name == "directionalLight")) ++
        [Object3D.ambientLight "ambientLight" (.hsl (lerp 0.6 0.05 p) 0.5 0.5)
            (lerp 0.05 0.3 b),
          Object3D.directionalLight "directionalLight" (.hsl (lerp 0.1 0.05 p) 1 0.95)
            (lerp 0.1 1.5 b) s.sun] := by
  unfold updateLighting
  simp only [remove_getObjectByName, Scene.add]
  rw [← setSkyboxColor_append _ _ _ (by simp [Object3D.name])]
  simp only [Scene.getObjectByName, List.append_assoc, List.singleton_append]
  split
  · rfl
  · rename_i hnone
    simp only [List.find?_eq_none] at hnone
    rw [setSkyboxColor_eq_self]
    intro o ho
    simpa using hnone o ho

theorem updateLighting_background (n b p : α) (s : State α) :
    (updateLighting n b p s).scene.background = s.scene.background := by
  unfold updateLighting
  simp only [remove_getObjectByName, Scene.add]
  split <;> rfl

/-- The state written by `updateSun`, field by field, in terms of the three signals. -/
theorem updateSun_eq (h : Host α) (x : α) (s : State α) :
    updateSun h x s =
      { scene :=
          ⟨.hsl (lerp 0.55 0.05 (sunsetProgress (normalizedTheta h (sunTheta h x))))
              (lerp 0.2 0.8 (sunsetProgress (normalizedTheta h (sunTheta h x))))
              (lerp 0.2 0.5 (normalizedTheta h (sunTheta h x))),
            setSkyboxColor
                (.hsl (lerp 0.67 0.6 (normalizedTheta h (sunTheta h x))) 0.5
                  (skyBrightness (normalizedTheta h (sunTheta h x))))
                ((s.scene.children.eraseP (fun o => o.name == "ambientLight")).eraseP
                  (fun o => o.name == "directionalLight")) ++
              [Object3D.ambientLight "ambientLight"
                  (.hsl (lerp 0.6 0.05 (sunsetProgress (normalizedTheta h (sunTheta h x))))
                    0.5 0.5)
                  (lerp 0.05 0.3 (skyBrightness (normalizedTheta h (sunTheta h x)))),
                Object3D.directionalLight "directionalLight"
                  (.hsl (lerp 0.1 0.05 (sunsetProgress (normalizedTheta h (sunTheta h x))))
                    1 0.95)
                  (lerp 0.1 1.5 (skyBrightness (normalizedTheta h (sunTheta h x))))
                  (sunVector h (sunTheta h x))]⟩
        camera := s.camera
        controls := s.controls
        sun := sunVector h (sunTheta h x)
        sky := s.sky.map fun _ =>
          ⟨lerp 1 20 (normalizedTheta h (sunTheta h x)),
            lerp 0.5 4 (sunsetProgress (normalizedTheta h (sunTheta h x))),
            lerp 0.005 0.03 (sunsetProgress (normalizedTheta h (sunTheta h x))),
            lerp 0.7 0.98 (sunsetProgress (normalizedTheta h (sunTheta h x))),
            sunVector h (sunTheta h x)⟩
        water := s.water.map fun u =>
          ⟨(sunVector h (sunTheta h x)).normalize h,
            .hsl (lerp 0.6 0.05 (sunsetProgress (normalizedTheta h (sunTheta h x))))
              (lerp 0.5 0.8 (sunsetProgress (normalizedTheta h (sunTheta h x))))
              (lerp 0.2 0.6 (skyBrightness (normalizedTheta h (sunTheta h x)))),
            u.time⟩
        starfield := s.starfield.map fun _ =>
          ⟨lerp 0.8 0 (skyBrightness (normalizedTheta h (sunTheta h x)))⟩
        keys := s.keys } := by
  ext1
  · ext1
    · exact updateLighting_background _ _ _ _
    · exact updateLighting_children _ _ _ _
  · rfl
  · rfl
  · rfl
  · show Option.map _ (Option.map _ s.sky) = _
    cases s.sky <;> rfl
  · show Option.map _ (Option.map _ s.water) = _
    cases s.water <;> rfl
  · rfl
  · rfl

theorem eraseP_name_of_unnamed (n : String) (hn : n ≠ "") (base : List (Object3D α))
    (hb : ∀ o ∈ base, o.name = "") : base.eraseP (fun o => o.name == n) = base := by
  apply List.eraseP_of_forall_not
  intro o ho
  rw [beq_iff_eq, hb o ho]
  exact fun he => hn he.symm

/-- On a scene without named children, `updateSun` appends the two named lights. -/
theorem updateSun_children_of_unnamed (h : Host α) (x : α) (s : State α)
    (hb : ∀ o ∈ s.scene.children, o.name = "") :
    (updateSun h x s).scene.children =
      s.scene.children ++
        [Object3D.ambientLight "ambientLight"
            (.hsl (lerp 0.6 0.05 (sunsetProgress (normalizedTheta h (sunTheta h x))))
              0.5 0.5)
            (lerp 0.05 0.3 (skyBrightness (normalizedTheta h (sunTheta h x)))),
          Object3D.directionalLight "directionalLight"
            (.hsl (lerp 0.1 0.05 (sunsetProgress (normalizedTheta h (sunTheta h x))))
              1 0.95)
            (lerp 0.1 1.5 (skyBrightness (normalizedTheta h (sunTheta h x))))
            (sunVector h (sunTheta h x))] := by
  rw [updateSun_eq]
  simp only
  rw [eraseP_name_of_unnamed _ (by decide) _ hb, eraseP_name_of_unnamed _ (by decide) _ hb,
    setSkyboxColor_eq_self]
  intro o ho
  rw [hb o ho]
  decide

/-- On a scene whose only named children are one light of each name, placed last,
`updateSun` replaces these two lights. -/
theorem updateSun_children_of_lit (h : Host α) (x : α) (s : State α)
    (base : List (Object3D α)) (a d : Object3D α)
    (hc : s.scene.children = base ++ [a, d]) (ha : a.name = "ambientLight")
    (hd : d.name = "directionalLight") (hb : ∀ o ∈ base, o.name = "") :
    (updateSun h x s).scene.children =
      base ++
        [Object3D.ambientLight "ambientLight"
            (.hsl (lerp 0.6 0.05 (sunsetProgress (normalizedTheta h (sunTheta h x))))
              0.5 0.5)
            (lerp 0.05 0.3 (skyBrightness (normalizedTheta h (sunTheta h x)))),
          Object3D.directionalLight "directionalLight"
            (.hsl (lerp 0.1 0.05 (sunsetProgress (normalizedTheta h (sunTheta h x))))
              1 0.95)
            (lerp 0.1 1.5 (skyBrightness (normalizedTheta h (sunTheta h x))))
            (sunVector h (sunTheta h x))] := by
  rw [updateSun_eq]
  simp only
  have h1 : (base ++ [a, d]).eraseP (fun o => o.name == "ambientLight") = base ++ [d] := by
    rw [List.eraseP_append_right _ (fun o ho => by rw [beq_iff_eq, hb o ho]; decide)]
    simp [ha]
  have h2 : (base ++ [d]).eraseP (fun o => o.name == "directionalLight") = base := by
    rw [List.eraseP_append_right _ (fun o ho => by rw [beq_iff_eq, hb o ho]; decide)]
    simp [hd]
  rw [hc, h1, h2, setSkyboxColor_eq_self]
  intro o ho
  rw [hb o ho]
  decide

theorem baseChildren_unnamed (hasSky hasWater : Bool) :
    ∀ o ∈ (baseChildren hasSky hasWater : List (Object3D α)), o.name = "" := by
  intro o ho
  cases hasSky <;> cases hasWater <;> simp [baseChildren] at ho <;>
    rcases ho with rfl | rfl | rfl | rfl | rfl <;> rfl

theorem animate_scene (h : Host α) (s : State α) : (animate h s).scene = s.scene := by
  unfold animate
  simp only
  split_ifs <;> rfl

theorem animate_sun (h : Host α) (s : State α) : (animate h s).sun = s.sun := by
  unfold animate
  simp only
  split_ifs <;> rfl

theorem animate_sky (h : Host α) (s : State α) : (animate h s).sky = s.sky := by
  unfold animate
  simp only
  split_ifs <;> rfl

theorem animate_starfield (h : Host α) (s : State α) :
    (animate h s).starfield = s.starfield := by
  unfold animate
  simp only
  split_ifs <;> rfl

theorem animate_keys (h : Host α) (s : State α) : (animate h s).keys = s.keys := by
  unfold animate
  simp only
  split_ifs <;> rfl

theorem animate_water (h : Host α) (s : State α) :
    (animate h s).water = s.water.map fun u => { u with time := u.time + 1.0 / 60.0 } := by
  unfold animate
  simp only
  split_ifs <;> rfl

theorem updateSun_settled (h : Host α) (x : α) (hasSky hasWater : Bool) (s : State α)
    (hs : Settled hasSky hasWater s) : Settled hasSky hasWater (updateSun h x s) := by
  obtain ⟨⟨ca, ia, cd, id, pd, hc⟩, h1, h2, h3⟩ := hs
  refine ⟨⟨_, _, _, _, _,
    updateSun_children_of_lit h x s _ _ _ hc rfl rfl (baseChildren_unnamed _ _)⟩, ?_, ?_, ?_⟩
  · rw [updateSun_eq]
    simpa using h1
  · rw [updateSun_eq]
    simpa using h2
  · rw [updateSun_eq]
    simpa using h3

theorem animate_settled (h : Host α) (hasSky hasWater : Bool) (s : State α)
    (hs : Settled hasSky hasWater s) : Settled hasSky hasWater (animate h s) := by
  unfold Settled at hs ⊢
  rw [animate_scene, animate_sky, animate_starfield, animate_water]
  simpa using hs

theorem onKeyDown_settled (k : String) (hasSky hasWater : Bool) (s : State α)
    (hs : Settled hasSky hasWater s) : Settled hasSky hasWater (onKeyDown k s) := by
  unfold onKeyDown
  simp only
  split_ifs
  · exact hs
  · exact hs

theorem onKeyUp_settled (k : String) (hasSky hasWater : Bool) (s : State α)
    (hs : Settled hasSky hasWater s) : Settled hasSky hasWater (onKeyUp k s) := by
  unfold onKeyUp
  simp only
  split_ifs
  · exact hs
  · exact hs

theorem updateSun_settled_of_base (h : Host α) (x : α) (hasSky hasWater : Bool)
    (s : State α) (hc : s.scene.children = baseChildren hasSky hasWater)
    (h1 : s.sky.isSome = hasSky) (h2 : s.water.isSome = hasWater)
    (h3 : s.starfield.isSome = true) : Settled hasSky hasWater (updateSun h x s) := by
  refine ⟨?_, ?_, ?_, ?_⟩
  · rw [updateSun_children_of_unnamed h x s (hc ▸ baseChildren_unnamed hasSky hasWater), hc]
    exact ⟨_, _, _, _, _, rfl⟩
  · rw [updateSun_eq]
    simpa using h1
  · rw [updateSun_eq]
    simpa using h2
  · rw [updateSun_eq]
    simpa using h3

theorem init_settled (h : Host α) (hasSky hasWater : Bool) (x0 : α) :
    Settled hasSky hasWater (init h hasSky hasWater x0) := by
  unfold init
  simp only
  apply animate_settled
  apply updateSun_settled_of_base
  · cases hasSky <;> cases hasWater <;> rfl
  · cases hasSky <;> rfl
  · cases hasWater <;> rfl
  · rfl

theorem run_settled (h : Host α) (hasSky hasWater : Bool) (es : List (Event α)) :
    ∀ s : State α, Settled hasSky hasWater s → Settled hasSky hasWater (run h s es) := by
  induction es with
  | nil => exact fun s hs => hs
  | cons e es ih =>
    intro s hs
    show Settled hasSky hasWater (run h (step h s e) es)
    apply ih
    cases e with
    | sunInput x => exact updateSun_settled h x _ _ s hs
    | tick t => exact animate_settled h _ _ s hs
    | keyDown k => exact onKeyDown_settled k _ _ s hs
    | keyUp k => exact onKeyUp_settled k _ _ s hs

/-- Every state of the running page is settled. -/
theorem reachable_settled (h : Host α) (hasSky hasWater : Bool) (s : State α)
    (hr : Reachable h hasSky hasWater s) : Settled hasSky hasWater s := by
  obtain ⟨x0, es, rfl⟩ := hr
  exact run_settled h _ _ es _ (init_settled h _ _ x0)

end SceneLemmas

/-- The two lights that `updateSun` places last in the scene. -/
theorem updateSun_children_tail {α : Type} [LinearOrderedField α] (h : Host α) (x : α)
    (s : State α) :
    ∃ rest, (updateSun h x s).scene.children =
      rest ++
        [Object3D.ambientLight "ambientLight"
            (.hsl (lerp 0.6 0.05 (sunsetProgress (normalizedTheta h (sunTheta h x))))
              0.5 0.5)
            (lerp 0.05 0.3 (skyBrightness (normalizedTheta h (sunTheta h x)))),
          Object3D.directionalLight "directionalLight"
            (.hsl (lerp 0.1 0.05 (sunsetProgress (normalizedTheta h (sunTheta h x))))
              1 0.95)
            (lerp 0.1 1.5 (skyBrightness (normalizedTheta h (sunTheta h x))))
            (updateSun h x s).sun] := by
  rw [updateSun_eq]
  exact ⟨_, rfl⟩

/-! ## The three signals -/

theorem updateSceneBasedOnSunPosition_eq {α : Type} [LinearOrderedField α] (h : Host α)
    (theta : α) (s : State α) :
    updateSceneBasedOnSunPosition h theta s =
      updateLighting (normalizedTheta h theta) (skyBrightness (normalizedTheta h theta))
        (sunsetProgress (normalizedTheta h theta))
        { s with
          sky := s.sky.map fun u =>
            { u with
              turbidity := lerp 1 20 (normalizedTheta h theta)
              rayleigh := lerp 0.5 4 (1 - |normalizedTheta h theta - 0.5| * 2)
              mieCoefficient := lerp 0.005 0.03 (1 - |normalizedTheta h theta - 0.5| * 2)
              mieDirectionalG := lerp 0.7 0.98 (1 - |normalizedTheta h theta - 0.5| * 2) }
          scene :=
            { s.scene with
              background :=
                .hsl (lerp 0.55 0.05 (sunsetProgress (normalizedTheta h theta)))
                  (lerp 0.2 0.8 (sunsetProgress (normalizedTheta h theta)))
                  (lerp 0.2 0.5 (normalizedTheta h theta)) }
          starfield := s.starfield.map fun m =>
            { m with opacity := lerp 0.8 0 (skyBrightness (normalizedTheta h theta)) } } :=
  rfl

theorem updateSun_eq_scene {α : Type} [LinearOrderedField α] (h : Host α) (x : α)
    (s : State α) :
    updateSun h x s =
      updateSceneBasedOnSunPosition h (sunTheta h x)
        { s with
          sun := sunVector h (sunTheta h x)
          sky := s.sky.map fun u => { u with sunPosition := sunVector h (sunTheta h x) }
          water := s.water.map fun u =>
            { u with sunDirection := (sunVector h (sunTheta h x)).normalize h } } :=
  rfl

section Signals

variable (orbit : Camera ℝ → Controls ℝ → Camera ℝ × Controls ℝ)

theorem sunTheta_real (x : ℝ) : sunTheta (realHost orbit) x = Real.pi * (x / 100 - 1 / 2) := by
  simp only [sunTheta, realHost]
  norm_num

theorem normalizedTheta_real (t : ℝ) :
    normalizedTheta (realHost orbit) t = (Real.sin t + 1) / 2 := by
  simp only [normalizedTheta, realHost]
  norm_num
  ring

theorem sunTheta_zero : sunTheta (realHost orbit) 0 = -(Real.pi / 2) := by
  rw [sunTheta_real]
  ring

theorem sunTheta_fifty : sunTheta (realHost orbit) 50 = 0 := by
  rw [sunTheta_real]
  norm_num

theorem sunTheta_hundred : sunTheta (realHost orbit) 100 = Real.pi / 2 := by
  rw [sunTheta_real]
  ring

theorem sunTheta_reflect (x : ℝ) :
    sunTheta (realHost orbit) (100 - x) = -sunTheta (realHost orbit) x := by
  rw [sunTheta_real, sunTheta_real]
  ring

theorem normalizedTheta_neg (t : ℝ) :
    normalizedTheta (realHost orbit) (-t) = 1 - normalizedTheta (realHost orbit) t := by
  rw [normalizedTheta_real, normalizedTheta_real, Real.sin_neg]
  ring

theorem sunsetProgress_reflect (n : ℝ) : sunsetProgress (1 - n) = sunsetProgress n := by
  unfold sunsetProgress
  have : (1 : ℝ) - n - 0.5 = -(n - 0.5) := by norm_num; ring
  rw [this, abs_neg]

end Signals

/-! ## Claims C1, C5, C4: the signals on the control range, their symmetry, the two ends -/

/-- C1: for every sunAngle in [0,100], with theta the angle that `updateSun` derives from
it (which then lies in [-pi/2, pi/2]), the three signals of `updateSceneBasedOnSunPosition`
lie in [0,1]: normalizedTheta, skyBrightness and sunsetProgress. -/
theorem signals_in_unit_interval
    (orbit : Camera ℝ → Controls ℝ → Camera ℝ × Controls ℝ) (sunAngle : ℝ)
    (h0 : 0 ≤ sunAngle) (h100 : sunAngle ≤ 100) :
    (-(Real.pi / 2) ≤ sunTheta (realHost orbit) sunAngle ∧
        sunTheta (realHost orbit) sunAngle ≤ Real.pi / 2) ∧
      (0 ≤ normalizedTheta (realHost orbit) (sunTheta (realHost orbit) sunAngle) ∧
        normalizedTheta (realHost orbit) (sunTheta (realHost orbit) sunAngle) ≤ 1) ∧
      (0 ≤ skyBrightness
            (normalizedTheta (realHost orbit) (sunTheta (realHost orbit) sunAngle)) ∧
        skyBrightness
            (normalizedTheta (realHost orbit) (sunTheta (realHost orbit) sunAngle)) ≤ 1) ∧
      (0 ≤ sunsetProgress
            (normalizedTheta (realHost orbit) (sunTheta (realHost orbit) sunAngle)) ∧
        sunsetProgress
            (normalizedTheta (realHost orbit) (sunTheta (realHost orbit) sunAngle)) ≤ 1) := by
  have hn := normalizedTheta_mem orbit (sunTheta (realHost orbit) sunAngle)
  have ht : -(Real.pi / 2) ≤ sunTheta (realHost orbit) sunAngle ∧
      sunTheta (realHost orbit) sunAngle ≤ Real.pi / 2 := by
    rw [sunTheta_real]
    have hpi := Real.pi_pos
    constructor <;> nlinarith
  exact ⟨ht, hn, skyBrightness_mem _, sunsetProgress_mem hn.1 hn.2⟩

/-- The signals at the slider value 50, an instance of `signals_in_unit_interval`. -/
theorem signals_in_unit_interval_witness :
    ((0 : ℝ) ≤ 50 ∧ (50 : ℝ) ≤ 100) ∧
      ((-(Real.pi / 2) ≤ sunTheta (realHost stillOrbit) 50 ∧
          sunTheta (realHost stillOrbit) 50 ≤ Real.pi / 2) ∧
        (0 ≤ normalizedTheta (realHost stillOrbit) (sunTheta (realHost stillOrbit) 50) ∧
          normalizedTheta (realHost stillOrbit) (sunTheta (realHost stillOrbit) 50) ≤ 1) ∧
        (0 ≤ skyBrightness
              (normalizedTheta (realHost stillOrbit) (sunTheta (realHost stillOrbit) 50)) ∧
          skyBrightness
              (normalizedTheta (realHost stillOrbit) (sunTheta (realHost stillOrbit) 50))
            ≤ 1) ∧
        (0 ≤ sunsetProgress
              (normalizedTheta (realHost stillOrbit) (sunTheta (realHost stillOrbit) 50)) ∧
          sunsetProgress
              (normalizedTheta (realHost stillOrbit) (sunTheta (realHost stillOrbit) 50))
            ≤ 1)) :=
  ⟨⟨by norm_num, by norm_num⟩,
    signals_in_unit_interval stillOrbit 50 (by norm_num) (by norm_num)⟩

/-- C5: sunsetProgress is symmetric about sunAngle = 50: the value computed for x equals
the value computed for 100 - x; on the axis, sunAngle = 50 gives theta = 0,
normalizedTheta = 0.5 and sunsetProgress = 1. -/
theorem sunsetProgress_symmetric
    (orbit : Camera ℝ → Controls ℝ → Camera ℝ × Controls ℝ) (x : ℝ) :
    sunsetProgress (normalizedTheta (realHost orbit) (sunTheta (realHost orbit) (100 - x))) =
        sunsetProgress (normalizedTheta (realHost orbit) (sunTheta (realHost orbit) x)) ∧
      sunTheta (realHost orbit) 50 = 0 ∧
      normalizedTheta (realHost orbit) (sunTheta (realHost orbit) 50) = 0.5 ∧
      sunsetProgress (normalizedTheta (realHost orbit) (sunTheta (realHost orbit) 50)) = 1 := by
  have hn : normalizedTheta (realHost orbit) (sunTheta (realHost orbit) 50) = 0.5 := by
    rw [sunTheta_fifty, normalizedTheta_real, Real.sin_zero]
    norm_num
  refine ⟨?_, sunTheta_fifty orbit, hn, ?_⟩
  · rw [sunTheta_reflect, normalizedTheta_neg, sunsetProgress_reflect]
  · rw [hn]
    simp [sunsetProgress]

/-- C4: at the two ends of the control range the update produces the stated values
exactly.  sunAngle = 0 gives theta = -pi/2, normalizedTheta = 0, skyBrightness = 0,
starfield opacity 0.8, ambient intensity 0.05, directional intensity 0.1; sunAngle = 100
gives theta = pi/2, normalizedTheta = 1, skyBrightness = 1, starfield opacity 0, ambient
intensity 0.3, directional intensity 1.5.  The opacity is written to the starfield when
there is one; the two intensities are those of the two lights placed last in the scene. -/
theorem endpoint_values (orbit : Camera ℝ → Controls ℝ → Camera ℝ × Controls ℝ)
    (s : State ℝ) :
    (sunTheta (realHost orbit) 0 = -(Real.pi / 2) ∧
        normalizedTheta (realHost orbit) (sunTheta (realHost orbit) 0) = 0 ∧
        skyBrightness (normalizedTheta (realHost orbit) (sunTheta (realHost orbit) 0)) = 0 ∧
        (updateSun (realHost orbit) 0 s).starfield = s.starfield.map (fun _ => ⟨0.8⟩) ∧
        ∃ rest ca cd,
          (updateSun (realHost orbit) 0 s).scene.children =
            rest ++
              [Object3D.ambientLight "ambientLight" ca 0.05,
                Object3D.directionalLight "directionalLight" cd 0.1
                  (updateSun (realHost orbit) 0 s).sun]) ∧
      (sunTheta (realHost orbit) 100 = Real.pi / 2 ∧
        normalizedTheta (realHost orbit) (sunTheta (realHost orbit) 100) = 1 ∧
        skyBrightness (normalizedTheta (realHost orbit) (sunTheta (realHost orbit) 100)) = 1 ∧
        (updateSun (realHost orbit) 100 s).starfield = s.starfield.map (fun _ => ⟨0⟩) ∧
        ∃ rest ca cd,
          (updateSun (realHost orbit) 100 s).scene.children =
            rest ++
              [Object3D.ambientLight "ambientLight" ca 0.3,
                Object3D.directionalLight "directionalLight" cd 1.5
                  (updateSun (realHost orbit) 100 s).sun]) := by
  have hn0 : normalizedTheta (realHost orbit) (sunTheta (realHost orbit) 0) = 0 := by
    rw [sunTheta_zero, normalizedTheta_real, Real.sin_neg, Real.sin_pi_div_two]
    norm_num
  have hn1 : normalizedTheta (realHost orbit) (sunTheta (realHost orbit) 100) = 1 := by
    rw [sunTheta_hundred, normalizedTheta_real, Real.sin_pi_div_two]
    norm_num
  have hb0 : skyBrightness (0 : ℝ) = 0 := by
    unfold skyBrightness smoothstep
    norm_num
  have hb1 : skyBrightness (1 : ℝ) = 1 := by
    unfold skyBrightness smoothstep
    norm_num
  refine ⟨⟨sunTheta_zero orbit, hn0, by rw [hn0, hb0], ?_, ?_⟩,
    ⟨sunTheta_hundred orbit, hn1, by rw [hn1, hb1], ?_, ?_⟩⟩
  · rw [updateSun_eq, hn0, hb0]
    simp [lerp]
  · obtain ⟨rest, hr⟩ := updateSun_children_tail (realHost orbit) 0 s
    rw [hn0, hb0] at hr
    rw [hr]
    refine ⟨rest, Color.hsl (lerp 0.6 0.05 (sunsetProgress 0)) 0.5 0.5,
      Color.hsl (lerp 0.1 0.05 (sunsetProgress 0)) 1 0.95, ?_⟩
    simp only [lerp]
    norm_num
  · rw [updateSun_eq, hn1, hb1]
    simp [lerp]
  · obtain ⟨rest, hr⟩ := updateSun_children_tail (realHost orbit) 100 s
    rw [hn1, hb1] at hr
    rw [hr]
    refine ⟨rest, Color.hsl (lerp 0.6 0.05 (sunsetProgress 1)) 0.5 0.5,
      Color.hsl (lerp 0.1 0.05 (sunsetProgress 1)) 1 0.95, ?_⟩
    simp only [lerp]
    norm_num

/-! ## Claim C9: the sun vector -/

section Sun

variable (orbit : Camera ℝ → Controls ℝ → Camera ℝ × Controls ℝ)

theorem sunVector_sq (theta : ℝ) :
    (sunVector (realHost orbit) theta).x * (sunVector (realHost orbit) theta).x +
        (sunVector (realHost orbit) theta).y * (sunVector (realHost orbit) theta).y +
        (sunVector (realHost orbit) theta).z * (sunVector (realHost orbit) theta).z =
      1000 ^ 2 := by
  simp only [sunVector, Vector3.setFromSphericalCoords, realHost]
  rw [Real.sin_pi_div_two_sub, Real.cos_pi_div_two_sub]
  have h1 := Real.sin_sq_add_cos_sq theta
  have h2 := Real.sin_sq_add_cos_sq (Real.pi * 0.25)
  generalize Real.sin (Real.pi * 0.25) = a at h2 ⊢
  generalize Real.cos (Real.pi * 0.25) = b at h2 ⊢
  generalize Real.sin theta = c at h1 ⊢
  generalize Real.cos theta = d at h1 ⊢
  have h3 : d ^ 2 * (a ^ 2 + b ^ 2) = d ^ 2 := by rw [h2, mul_one]
  nlinarith

theorem sunVector_length (theta : ℝ) :
    (sunVector (realHost orbit) theta).length (realHost orbit) = 1000 := by
  unfold Vector3.length
  rw [sunVector_sq]
  show Real.sqrt (1000 ^ 2) = 1000
  exact Real.sqrt_sq (by norm_num)

theorem sunVector_normalize (theta : ℝ) :
    (sunVector (realHost orbit) theta).normalize (realHost orbit) =
      (sunVector (realHost orbit) theta).multiplyScalar (1 / 1000) := by
  unfold Vector3.normalize Vector3.normalizeDivisor Vector3.divideScalar
  rw [sunVector_length]
  norm_num

theorem sunVector_unit (theta : ℝ) :
    ((sunVector (realHost orbit) theta).multiplyScalar (1 / 1000)).length (realHost orbit) =
      1 := by
  have h := sunVector_sq orbit theta
  unfold Vector3.length Vector3.multiplyScalar
  show Real.sqrt _ = 1
  simp only
  have : (sunVector (realHost orbit) theta).x * (1 / 1000) *
        ((sunVector (realHost orbit) theta).x * (1 / 1000)) +
      (sunVector (realHost orbit) theta).y * (1 / 1000) *
        ((sunVector (realHost orbit) theta).y * (1 / 1000)) +
      (sunVector (realHost orbit) theta).z * (1 / 1000) *
        ((sunVector (realHost orbit) theta).z * (1 / 1000)) = 1 := by
    nlinarith
  rw [this, Real.sqrt_one]

end Sun

/-- C9: for every sunAngle, the sun vector set by `updateSun` (spherical to Cartesian with
radius 1000, polar angle pi/2 - theta, azimuth pi/4) has Euclidean length exactly 1000;
the position of the directional light is that vector, not normalized; the `sunDirection`
uniform of the water, when the water has uniforms, is the same vector scaled by 1/1000,
which has length 1. -/
theorem sun_vector_length (orbit : Camera ℝ → Controls ℝ → Camera ℝ × Controls ℝ)
    (sunAngle : ℝ) (s : State ℝ) :
    (updateSun (realHost orbit) sunAngle s).sun =
        Vector3.setFromSphericalCoords (realHost orbit) 1000
          (Real.pi / 2 - sunTheta (realHost orbit) sunAngle) (Real.pi * 0.25) ∧
      (updateSun (realHost orbit) sunAngle s).sun.length (realHost orbit) = 1000 ∧
      (∃ rest a c i, (updateSun (realHost orbit) sunAngle s).scene.children =
        rest ++ [a, Object3D.directionalLight "directionalLight" c i
          (updateSun (realHost orbit) sunAngle s).sun]) ∧
      ((updateSun (realHost orbit) sunAngle s).water.map fun u => u.sunDirection) =
        s.water.map (fun _ =>
          (updateSun (realHost orbit) sunAngle s).sun.multiplyScalar (1 / 1000)) ∧
      ((updateSun (realHost orbit) sunAngle s).sun.multiplyScalar (1 / 1000)).length
        (realHost orbit) = 1 := by
  have hsun : (updateSun (realHost orbit) sunAngle s).sun =
      sunVector (realHost orbit) (sunTheta (realHost orbit) sunAngle) := rfl
  refine ⟨rfl, ?_, ?_, ?_, ?_⟩
  · rw [hsun]
    exact sunVector_length orbit _
  · obtain ⟨rest, hr⟩ := updateSun_children_tail (realHost orbit) sunAngle s
    exact ⟨rest, _, _, _, hr⟩
  · rw [hsun, updateSun_eq, sunVector_normalize]
    cases s.water <;> rfl
  · rw [hsun]
    exact sunVector_unit orbit _

/-! ## Claim C10: the whole real line -/

/-- What `updateSun` writes stays between the endpoints of its interpolations, as soon as
normalizedTheta lies in [0,1]. -/
theorem updateSun_ranges {α : Type} [LinearOrderedField α] (h : Host α) (x : α)
    (s : State α)
    (hn : 0 ≤ normalizedTheta h (sunTheta h x) ∧ normalizedTheta h (sunTheta h x) ≤ 1) :
    (∃ t r m g,
        (updateSun h x s).sky = s.sky.map (fun _ => ⟨t, r, m, g, (updateSun h x s).sun⟩) ∧
        (1 ≤ t ∧ t ≤ 20) ∧ (0.5 ≤ r ∧ r ≤ 4) ∧ (0.005 ≤ m ∧ m ≤ 0.03) ∧
        (0.7 ≤ g ∧ g ≤ 0.98)) ∧
      (∃ hue sat lig, (updateSun h x s).scene.background = Color.hsl hue sat lig ∧
        (0.05 ≤ hue ∧ hue ≤ 0.55) ∧ (0.2 ≤ sat ∧ sat ≤ 0.8) ∧ (0.2 ≤ lig ∧ lig ≤ 0.5)) ∧
      (∃ o, (updateSun h x s).starfield = s.starfield.map (fun _ => ⟨o⟩) ∧
        0 ≤ o ∧ o ≤ 0.8) ∧
      (∃ rest ha ia hd id,
        (updateSun h x s).scene.children =
          rest ++
            [Object3D.ambientLight "ambientLight" (Color.hsl ha 0.5 0.5) ia,
              Object3D.directionalLight "directionalLight" (Color.hsl hd 1 0.95) id
                (updateSun h x s).sun] ∧
        (0.05 ≤ ha ∧ ha ≤ 0.6) ∧ (0.05 ≤ ia ∧ ia ≤ 0.3) ∧
        (0.05 ≤ hd ∧ hd ≤ 0.1) ∧ (0.1 ≤ id ∧ id ≤ 1.5)) ∧
      (∃ hue sat lig,
        (updateSun h x s).water =
          s.water.map (fun u =>
            ⟨(updateSun h x s).sun.normalize h, Color.hsl hue sat lig, u.time⟩) ∧
        (0.05 ≤ hue ∧ hue ≤ 0.6) ∧ (0.5 ≤ sat ∧ sat ≤ 0.8) ∧ (0.2 ≤ lig ∧ lig ≤ 0.6)) := by
  have hsun : (updateSun h x s).sun = sunVector h (sunTheta h x) := rfl
  obtain ⟨rest, hr⟩ := updateSun_children_tail h x s
  have he := updateSun_eq h x s
  have hb := skyBrightness_mem (normalizedTheta h (sunTheta h x))
  have hp := sunsetProgress_mem hn.1 hn.2
  generalize normalizedTheta h (sunTheta h x) = n at hn hb hp hr he
  generalize skyBrightness n = b at hb hr he
  generalize sunsetProgress n = p at hp hr he
  refine ⟨?_, ?_, ?_, ?_, ?_⟩
  · refine ⟨lerp 1 20 n, lerp 0.5 4 p, lerp 0.005 0.03 p, lerp 0.7 0.98 p, ?_,
      lerp_mem_of_le (by norm_num) hn.1 hn.2, lerp_mem_of_le (by norm_num) hp.1 hp.2,
      lerp_mem_of_le (by norm_num) hp.1 hp.2, lerp_mem_of_le (by norm_num) hp.1 hp.2⟩
    rw [hsun, he]
  · refine ⟨lerp 0.55 0.05 p, lerp 0.2 0.8 p, lerp 0.2 0.5 n, ?_,
      lerp_mem_of_ge (by norm_num) hp.1 hp.2, lerp_mem_of_le (by norm_num) hp.1 hp.2,
      lerp_mem_of_le (by norm_num) hn.1 hn.2⟩
    rw [he]
  · refine ⟨lerp 0.8 0 b, ?_, lerp_mem_of_ge (by norm_num) hb.1 hb.2⟩
    rw [he]
  · exact ⟨rest, lerp 0.6 0.05 p, lerp 0.05 0.3 b, lerp 0.1 0.05 p, lerp 0.1 1.5 b, hr,
      lerp_mem_of_ge (by norm_num) hp.1 hp.2, lerp_mem_of_le (by norm_num) hb.1 hb.2,
      lerp_mem_of_ge (by norm_num) hp.1 hp.2, lerp_mem_of_le (by norm_num) hb.1 hb.2⟩
  · refine ⟨lerp 0.6 0.05 p, lerp 0.5 0.8 p, lerp 0.2 0.6 b, ?_,
      lerp_mem_of_ge (by norm_num) hp.1 hp.2, lerp_mem_of_le (by norm_num) hp.1 hp.2,
      lerp_mem_of_le (by norm_num) hb.1 hb.2⟩
    rw [hsun, he]

/-- C10: the model degrades gracefully without clamping.  For every real sunAngle, also
outside [0,100], normalizedTheta, skyBrightness and sunsetProgress stay in [0,1], and every
parameter that `updateSun` writes stays between its two lerp endpoints: turbidity in
[1,20], rayleigh in [0.5,4], mieCoefficient in [0.005,0.03], mieDirectionalG in [0.7,0.98],
starfield opacity in [0,0.8], ambient intensity in [0.05,0.3], directional intensity in
[0.1,1.5], and every HSL hue, saturation and lightness between its endpoints, hence in
[0,1].  No division by zero occurs: the divisors are the constants 100, 2 and 0.9 - 0.1
and the divisor of `normalize`, all nonzero. -/
theorem graceful_outside_range (orbit : Camera ℝ → Controls ℝ → Camera ℝ × Controls ℝ)
    (sunAngle : ℝ) (s : State ℝ) :
    ((0 ≤ normalizedTheta (realHost orbit) (sunTheta (realHost orbit) sunAngle) ∧
          normalizedTheta (realHost orbit) (sunTheta (realHost orbit) sunAngle) ≤ 1) ∧
        (0 ≤ skyBrightness
              (normalizedTheta (realHost orbit) (sunTheta (realHost orbit) sunAngle)) ∧
          skyBrightness
              (normalizedTheta (realHost orbit) (sunTheta (realHost orbit) sunAngle)) ≤ 1) ∧
        (0 ≤ sunsetProgress
              (normalizedTheta (realHost orbit) (sunTheta (realHost orbit) sunAngle)) ∧
          sunsetProgress
              (normalizedTheta (realHost orbit) (sunTheta (realHost orbit) sunAngle)) ≤ 1)) ∧
      (∃ t r m g,
        (updateSun (realHost orbit) sunAngle s).sky =
          s.sky.map (fun _ => ⟨t, r, m, g, (updateSun (realHost orbit) sunAngle s).sun⟩) ∧
        (1 ≤ t ∧ t ≤ 20) ∧ (0.5 ≤ r ∧ r ≤ 4) ∧ (0.005 ≤ m ∧ m ≤ 0.03) ∧
        (0.7 ≤ g ∧ g ≤ 0.98)) ∧
      (∃ hue sat lig,
        (updateSun (realHost orbit) sunAngle s).scene.background = Color.hsl hue sat lig ∧
        (0.05 ≤ hue ∧ hue ≤ 0.55) ∧ (0.2 ≤ sat ∧ sat ≤ 0.8) ∧ (0.2 ≤ lig ∧ lig ≤ 0.5)) ∧
      (∃ o,
        (updateSun (realHost orbit) sunAngle s).starfield =
          s.starfield.map (fun _ => ⟨o⟩) ∧
        0 ≤ o ∧ o ≤ 0.8) ∧
      (∃ rest ha ia hd id,
        (updateSun (realHost orbit) sunAngle s).scene.children =
          rest ++
            [Object3D.ambientLight "ambientLight" (Color.hsl ha 0.5 0.5) ia,
              Object3D.directionalLight "directionalLight" (Color.hsl hd 1 0.95) id
                (updateSun (realHost orbit) sunAngle s).sun] ∧
        (0.05 ≤ ha ∧ ha ≤ 0.6) ∧ (0.05 ≤ ia ∧ ia ≤ 0.3) ∧
        (0.05 ≤ hd ∧ hd ≤ 0.1) ∧ (0.1 ≤ id ∧ id ≤ 1.5)) ∧
      (∃ hue sat lig,
        (updateSun (realHost orbit) sunAngle s).water =
          s.water.map (fun u =>
            ⟨(updateSun (realHost orbit) sunAngle s).sun.normalize (realHost orbit),
              Color.hsl hue sat lig, u.time⟩) ∧
        (0.05 ≤ hue ∧ hue ≤ 0.6) ∧ (0.5 ≤ sat ∧ sat ≤ 0.8) ∧ (0.2 ≤ lig ∧ lig ≤ 0.6)) ∧
      ((100 : ℝ) ≠ 0 ∧ (2 : ℝ) ≠ 0 ∧ (0.9 : ℝ) - 0.1 ≠ 0 ∧
        Vector3.normalizeDivisor (realHost orbit)
          (updateSun (realHost orbit) sunAngle s).sun ≠ 0) := by
  have hn := normalizedTheta_mem orbit (sunTheta (realHost orbit) sunAngle)
  obtain ⟨h1, h2, h3, h4, h5⟩ := updateSun_ranges (realHost orbit) sunAngle s hn
  refine ⟨⟨hn, skyBrightness_mem _, sunsetProgress_mem hn.1 hn.2⟩, h1, h2, h3, h4, h5,
    by norm_num, by norm_num, by norm_num, ?_⟩
  have hsun : (updateSun (realHost orbit) sunAngle s).sun =
      sunVector (realHost orbit) (sunTheta (realHost orbit) sunAngle) := rfl
  rw [hsun]
  unfold Vector3.normalizeDivisor
  rw [sunVector_length]
  norm_num

/-! ## Claim C3: the written parameters refine the reference formulas -/

/-- C3: for every sunAngle (in any ordered field, so over the reals), the parameters that
`updateSun` writes equal the reference formulas of the specification on the stored
normalizedTheta, skyBrightness and sunsetProgress: the four sky uniforms, the background
HSL, the starfield opacity, the colour and intensity of the ambient light, the colour,
intensity and position (the sun vector) of the directional light, and the water tint.
The factor recomputed inline for rayleigh, mieCoefficient and mieDirectionalG is the
stored sunsetProgress. -/
theorem written_parameters_refine_spec {α : Type} [LinearOrderedField α] (h : Host α)
    (sunAngle : α) (s : State α) :
    (updateSun h sunAngle s).sky =
        s.sky.map (fun _ =>
          ⟨(referenceParameters h sunAngle).turbidity,
            (referenceParameters h sunAngle).rayleigh,
            (referenceParameters h sunAngle).mieCoefficient,
            (referenceParameters h sunAngle).mieDirectionalG,
            (updateSun h sunAngle s).sun⟩) ∧
      (updateSun h sunAngle s).scene.background =
        (referenceParameters h sunAngle).background ∧
      (updateSun h sunAngle s).starfield =
        s.starfield.map (fun _ => ⟨(referenceParameters h sunAngle).starfieldOpacity⟩) ∧
      (∃ rest, (updateSun h sunAngle s).scene.children =
        rest ++
          [Object3D.ambientLight "ambientLight"
              (referenceParameters h sunAngle).ambientColor
              (referenceParameters h sunAngle).ambientIntensity,
            Object3D.directionalLight "directionalLight"
              (referenceParameters h sunAngle).directionalColor
              (referenceParameters h sunAngle).directionalIntensity
              (referenceParameters h sunAngle).directionalPosition]) ∧
      (referenceParameters h sunAngle).directionalPosition = (updateSun h sunAngle s).sun ∧
      (updateSun h sunAngle s).water =
        s.water.map (fun u =>
          { u with
            sunDirection := (updateSun h sunAngle s).sun.normalize h
            waterColor := (referenceParameters h sunAngle).waterTint }) ∧
      1 - |normalizedTheta h (sunTheta h sunAngle) - 0.5| * 2 =
        sunsetProgress (normalizedTheta h (sunTheta h sunAngle)) := by
  have hsun : (updateSun h sunAngle s).sun = sunVector h (sunTheta h sunAngle) := rfl
  obtain ⟨rest, hr⟩ := updateSun_children_tail h sunAngle s
  refine ⟨?_, ?_, ?_, ⟨rest, ?_⟩, rfl, ?_, rfl⟩
  · rw [hsun, updateSun_eq]
    simp only [referenceParameters, specParameters, lerp_eq_specLerp]
  · rw [updateSun_eq]
    simp only [referenceParameters, specParameters, lerp_eq_specLerp]
  · rw [updateSun_eq]
    simp only [referenceParameters, specParameters, lerp_eq_specLerp]
  · rw [hr, hsun]
    simp only [referenceParameters, specParameters, lerp_eq_specLerp]
  · rw [hsun, updateSun_eq]
    simp only [referenceParameters, specParameters, lerp_eq_specLerp]

/-! ## Claim C2: the update is idempotent and free of history -/

section Idempotence

variable {α : Type} [LinearOrderedField α]

theorem updateSun_idem_of_settled (h : Host α) (hasSky hasWater : Bool) (x : α)
    (s : State α) (hs : Settled hasSky hasWater s) :
    updateSun h x (updateSun h x s) = updateSun h x s := by
  obtain ⟨⟨ca, ia, cd, id, pd, hc⟩, -, -, -⟩ := hs
  have hc1 := updateSun_children_of_lit h x s _ _ _ hc rfl rfl (baseChildren_unnamed _ _)
  have hc2 := updateSun_children_of_lit h x (updateSun h x s) _ _ _ hc1 rfl rfl
    (baseChildren_unnamed _ _)
  apply State.ext
  · apply Scene.ext
    · rw [updateSun_eq h x (updateSun h x s), updateSun_eq h x s]
    · rw [hc2, hc1]
  · rfl
  · rfl
  · rfl
  · rw [updateSun_eq h x (updateSun h x s), updateSun_eq h x s]
    cases s.sky <;> rfl
  · rw [updateSun_eq h x (updateSun h x s), updateSun_eq h x s]
    cases s.water <;> rfl
  · rw [updateSun_eq h x (updateSun h x s), updateSun_eq h x s]
    cases s.starfield <;> rfl
  · rfl

theorem updateSun_history_free (h : Host α) (hasSky hasWater : Bool) (x : α)
    (s t : State α) (hs : Settled hasSky hasWater s) (ht : Settled hasSky hasWater t) :
    (updateSun h x t).sun = (updateSun h x s).sun ∧
      (updateSun h x t).sky = (updateSun h x s).sky ∧
      (updateSun h x t).scene = (updateSun h x s).scene ∧
      (updateSun h x t).starfield = (updateSun h x s).starfield ∧
      ((updateSun h x t).water.map fun u => u.sunDirection) =
        ((updateSun h x s).water.map fun u => u.sunDirection) ∧
      ((updateSun h x t).water.map fun u => u.waterColor) =
        ((updateSun h x s).water.map fun u => u.waterColor) := by
  obtain ⟨⟨ca, ia, cd, id, pd, hc⟩, h1, h2, h3⟩ := hs
  obtain ⟨⟨ca', ia', cd', id', pd', hc'⟩, h1', h2', h3'⟩ := ht
  have hcs := updateSun_children_of_lit h x s _ _ _ hc rfl rfl (baseChildren_unnamed _ _)
  have hct := updateSun_children_of_lit h x t _ _ _ hc' rfl rfl (baseChildren_unnamed _ _)
  refine ⟨rfl, ?_, ?_, ?_, ?_, ?_⟩
  · rw [updateSun_eq h x t, updateSun_eq h x s]
    cases hss : s.sky <;> cases hts : t.sky <;> simp_all
  · apply Scene.ext
    · rw [updateSun_eq h x t, updateSun_eq h x s]
    · rw [hct, hcs]
  · rw [updateSun_eq h x t, updateSun_eq h x s]
    cases hss : s.starfield <;> cases hts : t.starfield <;> simp_all
  · rw [updateSun_eq h x t, updateSun_eq h x s]
    cases hss : s.water <;> cases hts : t.water <;> simp_all
  · rw [updateSun_eq h x t, updateSun_eq h x s]
    cases hss : s.water <;> cases hts : t.water <;> simp_all

end Idempotence

/-- C2: the environment update is idempotent and free of history on the explicit scene
state.  For every state reachable from `init` by slider moves, frame ticks and key
events, and every sunAngle x, applying `updateSun` with x twice yields the same state as
applying it once; and what the call writes (sun vector, sky uniforms, the scene with its
background and its list of lights, starfield opacity, the water's sun direction and tint)
is the same from every reachable state of the same page. -/
theorem update_idempotent_history_free {α : Type} [LinearOrderedField α] (h : Host α)
    (hasSky hasWater : Bool) (s : State α) (hr : Reachable h hasSky hasWater s) (x : α) :
    updateSun h x (updateSun h x s) = updateSun h x s ∧
      ∀ t : State α, Reachable h hasSky hasWater t →
        (updateSun h x t).sun = (updateSun h x s).sun ∧
          (updateSun h x t).sky = (updateSun h x s).sky ∧
          (updateSun h x t).scene = (updateSun h x s).scene ∧
          (updateSun h x t).starfield = (updateSun h x s).starfield ∧
          ((updateSun h x t).water.map fun u => u.sunDirection) =
            ((updateSun h x s).water.map fun u => u.sunDirection) ∧
          ((updateSun h x t).water.map fun u => u.waterColor) =
            ((updateSun h x s).water.map fun u => u.waterColor) :=
  ⟨updateSun_idem_of_settled h hasSky hasWater x s (reachable_settled h _ _ s hr),
    fun t ht => updateSun_history_free h hasSky hasWater x s t
      (reachable_settled h _ _ s hr) (reachable_settled h _ _ t ht)⟩

/-- The page started with the slider at 50, a frame drawn and the slider moved to 75 is
reachable, and `update_idempotent_history_free` applies to it with the slider at 25. -/
theorem update_idempotent_history_free_witness :
    Reachable (realHost stillOrbit) true true
        (run (realHost stillOrbit) (init (realHost stillOrbit) true true 50)
          [Event.tick 16, Event.sunInput 75]) ∧
      updateSun (realHost stillOrbit) 25
          (updateSun (realHost stillOrbit) 25
            (run (realHost stillOrbit) (init (realHost stillOrbit) true true 50)
              [Event.tick 16, Event.sunInput 75])) =
        updateSun (realHost stillOrbit) 25
          (run (realHost stillOrbit) (init (realHost stillOrbit) true true 50)
            [Event.tick 16, Event.sunInput 75]) :=
  ⟨⟨50, [Event.tick 16, Event.sunInput 75], rfl⟩,
    (update_idempotent_history_free (realHost stillOrbit) true true _
      ⟨50, [Event.tick 16, Event.sunInput 75], rfl⟩ 25).1⟩

/-! ## Claim C6: the lights in the scene -/

/-- The lights of every state of the running page: the two unnamed lights that `init`
adds stay in the scene, before the two named lights of the last update. -/
theorem reachable_lights {α : Type} [LinearOrderedField α] (h : Host α)
    (hasSky hasWater : Bool) (s : State α) (hr : Reachable h hasSky hasWater s) :
    ∃ ca ia cd id pd, lights s =
      [Object3D.ambientLight "" (.hex 0x404040) 1,
        Object3D.directionalLight "" (.hex 0xffffff) 0.5 ⟨1, 1, 1⟩,
        Object3D.ambientLight "ambientLight" ca ia,
        Object3D.directionalLight "directionalLight" cd id pd] := by
  obtain ⟨⟨ca, ia, cd, id, pd, hc⟩, -, -, -⟩ := reachable_settled h _ _ s hr
  refine ⟨ca, ia, cd, id, pd, ?_⟩
  unfold lights
  rw [hc]
  cases hasSky <;> cases hasWater <;> simp [baseChildren, Object3D.isLight]

/-- C6, as the code behaves: started with the slider at 50, the scene holds four lights
after `init`, and still four after the slider moves to 25: the ambient light (0x404040,
intensity 1) and the directional light (0xffffff, intensity 0.5, at (1,1,1)) that `init`
adds without a name are never removed by `updateLighting`, which looks the lights up by
name. -/
theorem stale_lights_remain :
    (lights (init (realHost stillOrbit) true true 50)).length = 4 ∧
      (lights (init (realHost stillOrbit) true true 50)).take 2 =
        [Object3D.ambientLight "" (.hex 0x404040) 1,
          Object3D.directionalLight "" (.hex 0xffffff) 0.5 ⟨1, 1, 1⟩] ∧
      (lights (run (realHost stillOrbit) (init (realHost stillOrbit) true true 50)
        [Event.sunInput 25])).length = 4 ∧
      (lights (run (realHost stillOrbit) (init (realHost stillOrbit) true true 50)
        [Event.sunInput 25])).take 2 =
        [Object3D.ambientLight "" (.hex 0x404040) 1,
          Object3D.directionalLight "" (.hex 0xffffff) 0.5 ⟨1, 1, 1⟩] := by
  obtain ⟨ca, ia, cd, id, pd, h1⟩ := reachable_lights (realHost stillOrbit) true true
    (init (realHost stillOrbit) true true 50) ⟨50, [], rfl⟩
  obtain ⟨ca', ia', cd', id', pd', h2⟩ := reachable_lights (realHost stillOrbit) true true
    (run (realHost stillOrbit) (init (realHost stillOrbit) true true 50)
      [Event.sunInput 25]) ⟨50, [Event.sunInput 25], rfl⟩
  rw [h1, h2]
  exact ⟨rfl, rfl, rfl, rfl⟩

/-! ## Claim C8: the simulated time of the water -/

section WaterTime

set_option linter.unusedSectionVars false

variable {α : Type} [LinearOrderedField α]

theorem waterTime_animate (h : Host α) (s : State α) :
    waterTime (animate h s) = (waterTime s).map fun t => t + 1 / 60 := by
  unfold waterTime
  rw [animate_water]
  cases s.water with
  | none => rfl
  | some u =>
    simp only [Option.map_some']
    congr 1
    norm_num

theorem waterTime_updateSun (h : Host α) (x : α) (s : State α) :
    waterTime (updateSun h x s) = waterTime s := by
  unfold waterTime
  rw [updateSun_eq]
  cases s.water <;> rfl

theorem waterTime_onKeyDown (k : String) (s : State α) :
    waterTime (onKeyDown k s) = waterTime s := by
  unfold onKeyDown
  simp only
  split_ifs <;> rfl

theorem waterTime_onKeyUp (k : String) (s : State α) :
    waterTime (onKeyUp k s) = waterTime s := by
  unfold onKeyUp
  simp only
  split_ifs <;> rfl

theorem waterTime_ticks (h : Host α) (n : Nat) (s : State α) :
    waterTime (ticks h n s) = (waterTime s).map fun t : α => t + (n : α) / 60 := by
  induction n with
  | zero =>
    cases hw : waterTime s <;> simp [ticks, hw]
  | succ n ih =>
    show waterTime (animate h (ticks h n s)) = _
    rw [waterTime_animate, ih]
    cases hw : waterTime s with
    | none => rfl
    | some t =>
      simp only [Option.map_some']
      congr 1
      push_cast
      ring

theorem waterTime_run (h : Host α) (es : List (Event α)) :
    ∀ s : State α, waterTime (run h s es) =
      (waterTime s).map fun t : α => t + ((es.countP Event.isTick : Nat) : α) / 60 := by
  induction es with
  | nil =>
    intro s
    cases hw : waterTime s <;> simp [run, hw]
  | cons e es ih =>
    intro s
    show waterTime (run h (step h s e) es) = _
    rw [ih]
    cases e with
    | sunInput x =>
      show Option.map _ (waterTime (updateSun h x s)) = _
      rw [waterTime_updateSun]
      simp [Event.isTick]
    | tick ts =>
      show Option.map _ (waterTime (animate h s)) = _
      rw [waterTime_animate]
      cases hw : waterTime s with
      | none => rfl
      | some t =>
        simp only [Option.map_some', List.countP_cons_of_pos, Event.isTick]
        congr 1
        push_cast
        ring
    | keyDown k =>
      show Option.map _ (waterTime (onKeyDown k s)) = _
      rw [waterTime_onKeyDown]
      simp [Event.isTick]
    | keyUp k =>
      show Option.map _ (waterTime (onKeyUp k s)) = _
      rw [waterTime_onKeyUp]
      simp [Event.isTick]

end WaterTime

theorem waterTime_init {α : Type} [LinearOrderedField α] (h : Host α) (hasSky : Bool)
    (x0 : α) : waterTime (init h hasSky true x0) = some (1 / 60) := by
  unfold init
  simp only
  rw [waterTime_animate, waterTime_updateSun]
  simp [waterTime, createStarfield]

/-- C8: every call of the frame tick `animate` increases the simulated time of the water
by exactly 1/60, whatever the state and whatever time stamp the browser passes: from a
state whose water time is t, one tick gives t + 1/60, n ticks give t + n/60, the sequence
is strictly increasing, and in any run of events the water time is t plus 1/60 for each
tick among them, whatever the time stamps and the other events. -/
theorem water_time_fixed_step {α : Type} [LinearOrderedField α] (h : Host α)
    (s : State α) (t : α) (hw : waterTime s = some t) :
    waterTime (animate h s) = some (t + 1 / 60) ∧
      (∀ n : Nat, waterTime (ticks h n s) = some (t + (n : α) / 60)) ∧
      (∀ m n : Nat, m < n → ∃ a b, waterTime (ticks h m s) = some a ∧
        waterTime (ticks h n s) = some b ∧ a < b) ∧
      (∀ es : List (Event α), waterTime (run h s es) =
        some (t + ((es.countP Event.isTick : Nat) : α) / 60)) := by
  have hticks : ∀ n : Nat, waterTime (ticks h n s) = some (t + (n : α) / 60) := by
    intro n
    rw [waterTime_ticks, hw]
    rfl
  refine ⟨?_, hticks, ?_, ?_⟩
  · rw [waterTime_animate, hw]
    rfl
  · intro m n hmn
    refine ⟨_, _, hticks m, hticks n, ?_⟩
    have : (m : α) < n := by exact_mod_cast hmn
    have h60 : (0 : α) < 60 := by norm_num
    have := div_lt_div_of_pos_right this h60
    linarith
  · intro es
    rw [waterTime_run, hw]
    rfl

/-- The page started with water and the slider at 50 has water time 1/60 (one frame is
drawn by `init`), and `water_time_fixed_step` applies to it. -/
theorem water_time_fixed_step_witness :
    waterTime (init (realHost stillOrbit) true true 50) = some (1 / 60) ∧
      waterTime (animate (realHost stillOrbit) (init (realHost stillOrbit) true true 50)) =
        some (1 / 60 + 1 / 60) :=
  ⟨waterTime_init _ _ _,
    (water_time_fixed_step (realHost stillOrbit) (init (realHost stillOrbit) true true 50)
      (1 / 60) (waterTime_init _ _ _)).1⟩

/-! ## Claim C7: the camera controller -/

section CameraLemmas

variable (orbit : Camera ℝ → Controls ℝ → Camera ℝ × Controls ℝ)

theorem cameraRight_eq (s : State ℝ) :
    cameraRight (realHost orbit) s =
      ⟨s.camera.direction.z *
          (1 / Vector3.normalizeDivisor (realHost orbit)
            ⟨s.camera.direction.z, 0, -s.camera.direction.x⟩),
        0,
        -s.camera.direction.x *
          (1 / Vector3.normalizeDivisor (realHost orbit)
            ⟨s.camera.direction.z, 0, -s.camera.direction.x⟩)⟩ := by
  have hc : Vector3.crossVectors ⟨0, 1, 0⟩ s.camera.direction =
      (⟨s.camera.direction.z, 0, -s.camera.direction.x⟩ : Vector3 ℝ) := by
    simp [Vector3.crossVectors]
  unfold cameraRight
  rw [hc]
  simp [Vector3.normalize, Vector3.divideScalar, Vector3.multiplyScalar]

theorem cameraRight_dot (s : State ℝ) :
    (cameraRight (realHost orbit) s).dot s.camera.direction = 0 := by
  rw [cameraRight_eq]
  simp only [Vector3.dot]
  ring

theorem cameraRight_vertical (s : State ℝ) (hx : s.camera.direction.x = 0)
    (hz : s.camera.direction.z = 0) : cameraRight (realHost orbit) s = ⟨0, 0, 0⟩ := by
  rw [cameraRight_eq, hx, hz]
  simp

theorem cameraRight_length (s : State ℝ)
    (hne : s.camera.direction.x ≠ 0 ∨ s.camera.direction.z ≠ 0) :
    (cameraRight (realHost orbit) s).length (realHost orbit) = 1 := by
  have hpos : 0 < s.camera.direction.z * s.camera.direction.z +
      s.camera.direction.x * s.camera.direction.x := by
    rcases hne with h | h
    · have := mul_self_pos.mpr h
      have := mul_self_nonneg s.camera.direction.z
      linarith
    · have := mul_self_pos.mpr h
      have := mul_self_nonneg s.camera.direction.x
      linarith
  have hlen : Vector3.length (realHost orbit)
      (⟨s.camera.direction.z, 0, -s.camera.direction.x⟩ : Vector3 ℝ) =
      Real.sqrt (s.camera.direction.z * s.camera.direction.z +
        s.camera.direction.x * s.camera.direction.x) := by
    simp [Vector3.length, realHost]
  have hsq := Real.sqrt_pos.mpr hpos
  have hmul := Real.mul_self_sqrt hpos.le
  rw [cameraRight_eq]
  unfold Vector3.normalizeDivisor
  rw [hlen, if_neg hsq.ne']
  generalize Real.sqrt (s.camera.direction.z * s.camera.direction.z +
    s.camera.direction.x * s.camera.direction.x) = r at hsq hmul
  show Real.sqrt _ = 1
  have : s.camera.direction.z * (1 / r) * (s.camera.direction.z * (1 / r)) + 0 * 0 +
      -s.camera.direction.x * (1 / r) * (-s.camera.direction.x * (1 / r)) = 1 := by
    field_simp
    nlinarith
  simp only
  rw [this, Real.sqrt_one]

theorem length_of_unit (orbit : Camera ℝ → Controls ℝ → Camera ℝ × Controls ℝ)
    (v : Vector3 ℝ) (c : ℝ) (hc : c * c = 1) (hv : v.length (realHost orbit) = 1) :
    (v.multiplyScalar c).length (realHost orbit) = 1 := by
  have h1 : v.x * v.x + v.y * v.y + v.z * v.z = 1 := by
    have : Real.sqrt (v.x * v.x + v.y * v.y + v.z * v.z) = 1 := hv
    rwa [Real.sqrt_eq_one] at this
  show Real.sqrt _ = 1
  have : v.x * c * (v.x * c) + v.y * c * (v.y * c) + v.z * c * (v.z * c) = 1 := by
    nlinarith
  simp only [Vector3.multiplyScalar]
  rw [this, Real.sqrt_one]

end CameraLemmas

section Delta

variable {α : Type} [LinearOrderedField α]

theorem addScaledVector_sub (p v : Vector3 α) (c : α) :
    (p.addScaledVector v c).sub p = v.multiplyScalar c := by
  simp [Vector3.addScaledVector, Vector3.sub, Vector3.multiplyScalar]

theorem updateCamera_released (h : Host α) (s : State α) :
    (updateCamera h (holding Keys.released s)).camera.position = s.camera.position := by
  simp [updateCamera, holding, Keys.released]

theorem positionDelta_released (h : Host α) (s : State α) :
    positionDelta h (holding Keys.released s) = ⟨0, 0, 0⟩ := by
  unfold positionDelta
  rw [updateCamera_released]
  simp [Vector3.sub, holding]

theorem positionDelta_w (h : Host α) (s : State α) :
    positionDelta h (holding (Keys.only "w") s) =
      s.camera.direction.multiplyScalar moveSpeed := by
  have hk : Keys.only "w" = ⟨true, false, false, false, false, false⟩ := by decide
  simp [positionDelta, updateCamera, addScaledVector_sub, holding, hk]

theorem positionDelta_a (h : Host α) (s : State α) :
    positionDelta h (holding (Keys.only "a") s) =
      (cameraRight h s).multiplyScalar (-moveSpeed) := by
  have hk : Keys.only "a" = ⟨false, true, false, false, false, false⟩ := by decide
  simp [positionDelta, updateCamera, addScaledVector_sub, cameraRight, holding, hk]

theorem positionDelta_s (h : Host α) (s : State α) :
    positionDelta h (holding (Keys.only "s") s) =
      s.camera.direction.multiplyScalar (-moveSpeed) := by
  have hk : Keys.only "s" = ⟨false, false, true, false, false, false⟩ := by decide
  simp [positionDelta, updateCamera, addScaledVector_sub, holding, hk]

theorem positionDelta_d (h : Host α) (s : State α) :
    positionDelta h (holding (Keys.only "d") s) =
      (cameraRight h s).multiplyScalar moveSpeed := by
  have hk : Keys.only "d" = ⟨false, false, false, true, false, false⟩ := by decide
  simp [positionDelta, updateCamera, addScaledVector_sub, cameraRight, holding, hk]

theorem positionDelta_q (h : Host α) (s : State α) :
    positionDelta h (holding (Keys.only "q") s) =
      (⟨0, 1, 0⟩ : Vector3 α).multiplyScalar (-moveSpeed) := by
  have hk : Keys.only "q" = ⟨false, false, false, false, true, false⟩ := by decide
  simp [positionDelta, updateCamera, addScaledVector_sub, holding, hk]

theorem positionDelta_e (h : Host α) (s : State α) :
    positionDelta h (holding (Keys.only "e") s) =
      (⟨0, 1, 0⟩ : Vector3 α).multiplyScalar moveSpeed := by
  have hk : Keys.only "e" = ⟨false, false, false, false, false, true⟩ := by decide
  simp [positionDelta, updateCamera, addScaledVector_sub, holding, hk]

end Delta

/-- C7, amended: for every unit forward vector of the camera, one call of `updateCamera`
leaves the position unchanged (delta exactly zero) when none of the six keys is held.
When exactly one key is held: w gives +moveSpeed*forward and s gives -moveSpeed*forward,
of magnitude moveSpeed (= 1); e gives +moveSpeed*up and q gives -moveSpeed*up, of
magnitude moveSpeed; d gives +moveSpeed*right and a gives -moveSpeed*right, with
right = normalize(up x forward) perpendicular to forward, and these two deltas have
magnitude moveSpeed when forward is not vertical (its x or its z is not 0), while for a
vertical forward vector right is the zero vector and the deltas are zero. -/
theorem camera_delta (orbit : Camera ℝ → Controls ℝ → Camera ℝ × Controls ℝ)
    (s : State ℝ) (hu : s.camera.direction.length (realHost orbit) = 1) :
    ((updateCamera (realHost orbit) (holding Keys.released s)).camera.position =
          s.camera.position ∧
        positionDelta (realHost orbit) (holding Keys.released s) = ⟨0, 0, 0⟩) ∧
      (positionDelta (realHost orbit) (holding (Keys.only "w") s) =
          s.camera.direction.multiplyScalar moveSpeed ∧
        (positionDelta (realHost orbit) (holding (Keys.only "w") s)).length
            (realHost orbit) = moveSpeed) ∧
      (positionDelta (realHost orbit) (holding (Keys.only "s") s) =
          s.camera.direction.multiplyScalar (-moveSpeed) ∧
        (positionDelta (realHost orbit) (holding (Keys.only "s") s)).length
            (realHost orbit) = moveSpeed) ∧
      (positionDelta (realHost orbit) (holding (Keys.only "e") s) =
          (⟨0, 1, 0⟩ : Vector3 ℝ).multiplyScalar moveSpeed ∧
        (positionDelta (realHost orbit) (holding (Keys.only "e") s)).length
            (realHost orbit) = moveSpeed) ∧
      (positionDelta (realHost orbit) (holding (Keys.only "q") s) =
          (⟨0, 1, 0⟩ : Vector3 ℝ).multiplyScalar (-moveSpeed) ∧
        (positionDelta (realHost orbit) (holding (Keys.only "q") s)).length
            (realHost orbit) = moveSpeed) ∧
      (positionDelta (realHost orbit) (holding (Keys.only "d") s) =
          (cameraRight (realHost orbit) s).multiplyScalar moveSpeed ∧
        positionDelta (realHost orbit) (holding (Keys.only "a") s) =
          (cameraRight (realHost orbit) s).multiplyScalar (-moveSpeed) ∧
        cameraRight (realHost orbit) s =
          (Vector3.crossVectors ⟨0, 1, 0⟩ s.camera.direction).normalize (realHost orbit) ∧
        (cameraRight (realHost orbit) s).dot s.camera.direction = 0) ∧
      (s.camera.direction.x ≠ 0 ∨ s.camera.direction.z ≠ 0 →
        (positionDelta (realHost orbit) (holding (Keys.only "d") s)).length
            (realHost orbit) = moveSpeed ∧
          (positionDelta (realHost orbit) (holding (Keys.only "a") s)).length
            (realHost orbit) = moveSpeed) ∧
      (s.camera.direction.x = 0 ∧ s.camera.direction.z = 0 →
        cameraRight (realHost orbit) s = ⟨0, 0, 0⟩ ∧
          positionDelta (realHost orbit) (holding (Keys.only "d") s) = ⟨0, 0, 0⟩ ∧
          positionDelta (realHost orbit) (holding (Keys.only "a") s) = ⟨0, 0, 0⟩) := by
  have hup : Vector3.length (realHost orbit) (⟨0, 1, 0⟩ : Vector3 ℝ) = 1 := by
    simp [Vector3.length, realHost]
  refine ⟨⟨updateCamera_released _ s, positionDelta_released _ s⟩,
    ⟨positionDelta_w _ s, ?_⟩, ⟨positionDelta_s _ s, ?_⟩,
    ⟨positionDelta_e _ s, ?_⟩, ⟨positionDelta_q _ s, ?_⟩,
    ⟨positionDelta_d _ s, positionDelta_a _ s, rfl, cameraRight_dot orbit s⟩, ?_, ?_⟩
  · rw [positionDelta_w]
    exact length_of_unit orbit _ _ (by simp [moveSpeed]) hu
  · rw [positionDelta_s]
    exact length_of_unit orbit _ _ (by simp [moveSpeed]) hu
  · rw [positionDelta_e]
    exact length_of_unit orbit _ _ (by simp [moveSpeed]) hup
  · rw [positionDelta_q]
    exact length_of_unit orbit _ _ (by simp [moveSpeed]) hup
  · intro hne
    rw [positionDelta_d, positionDelta_a]
    exact ⟨length_of_unit orbit _ _ (by simp [moveSpeed]) (cameraRight_length orbit s hne),
      length_of_unit orbit _ _ (by simp [moveSpeed]) (cameraRight_length orbit s hne)⟩
  · rintro ⟨hx, hz⟩
    rw [positionDelta_d, positionDelta_a, cameraRight_vertical orbit s hx hz]
    simp [Vector3.multiplyScalar]

/-- With the camera looking along `-z`, a unit vector, holding w moves it by
moveSpeed * forward: an instance of `camera_delta`. -/
theorem camera_delta_witness :
    lookingAhead.camera.direction.length (realHost stillOrbit) = 1 ∧
      positionDelta (realHost stillOrbit) (holding (Keys.only "w") lookingAhead) =
        lookingAhead.camera.direction.multiplyScalar moveSpeed ∧
      (positionDelta (realHost stillOrbit) (holding (Keys.only "w") lookingAhead)).length
          (realHost stillOrbit) =
        moveSpeed :=
  ⟨by simp [lookingAhead, Vector3.length, realHost],
    (camera_delta stillOrbit lookingAhead
      (by simp [lookingAhead, Vector3.length, realHost])).2.1⟩

/-- C7 as stated fails when the camera looks straight up: the forward vector (0,1,0) is
a unit vector and only d is held, yet right = normalize(up x forward) is the zero vector,
so the position delta is zero and its magnitude is not moveSpeed. -/
theorem camera_delta_counterexample :
    lookingUp.camera.direction = ⟨0, 1, 0⟩ ∧
      lookingUp.camera.direction.length (realHost stillOrbit) = 1 ∧
      lookingUp.keys = ⟨false, false, false, true, false, false⟩ ∧
      positionDelta (realHost stillOrbit) lookingUp = ⟨0, 0, 0⟩ ∧
      (positionDelta (realHost stillOrbit) lookingUp).length (realHost stillOrbit) ≠
        moveSpeed := by
  have hd : positionDelta (realHost stillOrbit) lookingUp = ⟨0, 0, 0⟩ := by
    have h1 := positionDelta_d (realHost stillOrbit) lookingUp
    have h2 := cameraRight_vertical stillOrbit lookingUp rfl rfl
    rw [h2] at h1
    have h3 : holding (Keys.only "d") lookingUp = lookingUp := rfl
    rw [h3] at h1
    rw [h1]
    simp [Vector3.multiplyScalar]
  refine ⟨rfl, by simp [lookingUp, Vector3.length, realHost], by decide, hd, ?_⟩
  rw [hd]
  simp [Vector3.length, realHost, moveSpeed]

end OceanViewer
